import Mathlib

/-!
# Ares HDR video appliance — verification of spec claims against the source

Shallow embedding of the components of the Ares repository that the
claims concern:

* `src/input/receiver_control.cpp` — EISCP packet build/parse,
* `src/capture/frame_buffer.cpp` — bounded frame FIFO with drop/repeat policy,
* `src/sync/frame_scheduler.cpp` — frame-rate-conversion accumulator,
* `src/processing/processing_pipeline.cpp` — stage routing (SDR pass-through),
* `src/osd/menu_system.cpp` — menu navigation,
* `src/display/edid_parser.cpp` — EDID block parsing and checksums,
* `src/capture/decklink_capture.{h,cpp}` + `src/display/frame_rate_matcher.cpp`
  — frame-rate detection plumbing.

Modelling conventions:

* machine bytes are `Nat` values (the C++ code only ever stores values
  `< 256` in them); `uint32_t` narrowing is modelled with an explicit
  `% 2^32`;
* C++ `double`/`float` quantities that the claims reason about
  (frame rates, the scheduler accumulator) are modelled as exact
  rationals `ℚ`;
* time points (`std::chrono` values) are nanosecond counts in `ℤ`;
* heap buffers are modelled as an allocation id plus the byte list, so
  that "distinct buffer" (pointer inequality) is expressible; every
  `new uint8_t[]` takes a fresh id from an allocation counter in the state;
* mutex/condvar waiting is modelled sequentially: an operation observes
  the state as it is when it runs (the claims are all per-operation or
  per-sequence functional properties).
-/

/-- `ares::Result` from `include/ares/types.h`, extended with the additional
error enumerators used by `edid_parser.cpp` and `receiver_control.cpp`. -/
inductive Result where
  | SUCCESS
  | ERROR_GENERIC
  | ERROR_NOT_FOUND
  | ERROR_INVALID_PARAMETER
  | ERROR_NOT_INITIALIZED
  | ERROR_DEVICE_LOST
  | ERROR_OUT_OF_MEMORY
  | ERROR_TIMEOUT
  | ERROR_INVALID_DATA
  | ERROR_CONNECTION_FAILED
  deriving DecidableEq, Repr

/-- `ares::PixelFormat` from `include/ares/types.h`. -/
inductive PixelFormat where
  | UNKNOWN
  | YUV422_8BIT
  | YUV422_10BIT
  | RGB_8BIT
  | RGB_10BIT
  | RGB_16BIT_FLOAT
  deriving DecidableEq, Repr

/-- `ares::HDRType` from `include/ares/types.h`. -/
inductive HDRType where
  | NONE
  | HDR10
  | HLG
  | DOLBY_VISION
  deriving DecidableEq, Repr

/-- `ares::HDRMetadata` from `include/ares/types.h` (fixed-point fields as `Nat`). -/
structure HDRMetadata where
  type : HDRType := HDRType.NONE
  primary_r_x : Nat := 0
  primary_r_y : Nat := 0
  primary_g_x : Nat := 0
  primary_g_y : Nat := 0
  primary_b_x : Nat := 0
  primary_b_y : Nat := 0
  white_point_x : Nat := 0
  white_point_y : Nat := 0
  max_cll : Nat := 0
  max_fall : Nat := 0
  max_luminance : Nat := 0
  min_luminance : Nat := 0
  deriving DecidableEq, Repr

/-- A heap byte buffer: allocation identity (stands for the pointer value)
plus contents.  Two buffers with different `id` are distinct allocations. -/
structure Buffer where
  id : Nat
  bytes : List Nat
  deriving DecidableEq, Repr

/-- `ares::VideoFrame` from `include/ares/types.h`.  `data = none` models a
null `data` pointer; `pts` is the `steady_clock` time point in nanoseconds. -/
structure VideoFrame where
  data : Option Buffer := none
  size : Nat := 0
  width : Nat := 0
  height : Nat := 0
  format : PixelFormat := PixelFormat.UNKNOWN
  pts : Int := 0
  hdr_metadata : HDRMetadata := {}
  interlaced : Bool := false
  deriving DecidableEq, Repr

/-! ## EISCP packets — `src/input/receiver_control.cpp`

Strings are byte lists.  `'I' = 73, 'S' = 83, 'C' = 67, 'P' = 80,
'!' = 33, '1' = 49, '\r' = 13, '\n' = 10`. -/

/-- `ReceiverControl::buildEISCPPacket` (receiver_control.cpp:98–145).
`data = "!1" + command + parameter + "\r\n"`; the `uint32_t data_size`
narrows `data.size()` modulo `2^32`.  The four data-size bytes are pushed
big-endian; `(x >> s) & 0xFF` is written `x / 2^s % 256`. -/
def buildEISCPPacket (command parameter : List Nat) : List Nat :=
  let data : List Nat := [33, 49] ++ command ++ parameter ++ [13, 10]
  let data_size : Nat := data.length % 2 ^ 32
  [73, 83, 67, 80,
   0x00, 0x00, 0x00, 0x10,
   data_size / 2 ^ 24 % 256, data_size / 2 ^ 16 % 256,
   data_size / 2 ^ 8 % 256, data_size % 256,
   0x01,
   0x00, 0x00, 0x00] ++ data

/-- `ReceiverControl::parseEISCPPacket` (receiver_control.cpp:147–185),
returning `some (command, parameter)` in place of filling an out-param and
returning `true`.  The data slice `[begin+18, begin+16+data_size-2)` is
`drop 18` then `take (16 + data_size - 2 - 18)`; `Nat` subtraction
truncates at zero, resolving the (undefined) reversed-iterator case to an
empty slice. -/
def parseEISCPPacket (packet : List Nat) : Option (List Nat × List Nat) :=
  if packet.length < 21 then none
  else if ¬ (packet.getD 0 0 = 73 ∧ packet.getD 1 0 = 83 ∧
             packet.getD 2 0 = 67 ∧ packet.getD 3 0 = 80) then none
  else
    let data_size : Nat :=
      packet.getD 8 0 * 2 ^ 24 + packet.getD 9 0 * 2 ^ 16 +
      packet.getD 10 0 * 2 ^ 8 + packet.getD 11 0
    if packet.length < 16 + data_size then none
    else
      let data : List Nat := (packet.drop 18).take (16 + data_size - 2 - 18)
      if data.length < 3 then none
      else some (data.take 3, data.drop 3)

/-! ## Frame buffer — `src/capture/frame_buffer.cpp`

The buffer state holds an allocation counter `next_alloc`; every
`new uint8_t[...]` the C++ code performs takes the next id, so distinct
allocations have distinct ids. -/

/-- `ares::FrameTiming` from `frame_buffer.h` (time points in ns). -/
structure FrameTiming where
  arrival_time : Int := 0
  target_time : Int := 0
  latency : Int := 0
  is_late : Bool := false
  is_dropped : Bool := false
  is_repeated : Bool := false
  deriving DecidableEq, Repr

/-- `FrameBuffer::BufferedFrame` from `frame_buffer.h`. -/
structure BufferedFrame where
  frame : VideoFrame
  timing : FrameTiming
  deriving DecidableEq, Repr

/-- `FrameBuffer::Stats` counters (the floating-point latency fields
`avg_latency_ms`/`max_latency_ms` are not modelled; no claim concerns them). -/
structure FBStats where
  frames_pushed : Nat := 0
  frames_popped : Nat := 0
  frames_dropped : Nat := 0
  frames_repeated : Nat := 0
  frames_late : Nat := 0
  deriving DecidableEq, Repr

/-- The `FrameBuffer` state: bounded FIFO (`queue`, head = front),
statistics, the retained last-popped frame (`m_has_last_frame` is
`last_frame.isSome`), and the allocation counter. -/
structure FrameBuffer where
  capacity : Nat
  queue : List BufferedFrame := []
  stats : FBStats := {}
  last_frame : Option BufferedFrame := none
  next_alloc : Nat := 0
  deriving DecidableEq, Repr

/-- `FrameBuffer::FrameBuffer(capacity)`. -/
def FrameBuffer.init (capacity : Nat) : FrameBuffer := { capacity := capacity }

/-- The deep copy `push` makes of the caller's frame data
(frame_buffer.cpp:50–55): a fresh allocation holding the first
`frame.size` bytes when `data` is non-null and `size > 0`, else a null
pointer. -/
def copyFrameData (alloc : Nat) (f : VideoFrame) : Option Buffer :=
  match f.data with
  | some b => if f.size > 0 then some ⟨alloc, b.bytes.take f.size⟩ else none
  | none => none

/-- The copy both `pop` paths make of a frame
(frame_buffer.cpp:105–109 and 137–142): a struct copy, re-pointing `data`
at a fresh allocation when the source has a non-null pointer and
`size > 0` (otherwise the struct copy is kept as is). -/
def copyIfData (alloc : Nat) (f : VideoFrame) : VideoFrame :=
  match f.data with
  | some b => if f.size > 0 then { f with data := some ⟨alloc, b.bytes.take f.size⟩ } else f
  | none => f

/-- `FrameBuffer::push` (frame_buffer.cpp:17–91); `now` is the
`steady_clock::now()` reading taken while holding the lock.  When full:
without `drop_oldest_on_full` the push is refused with
`ERROR_OUT_OF_MEMORY`; with it, the oldest frame (queue front) is
discarded and `frames_dropped` incremented before the insert. -/
def FrameBuffer.push (fb : FrameBuffer) (frame : VideoFrame)
    (drop_oldest_on_full : Bool) (now : Int) : Result × FrameBuffer :=
  if fb.queue.length ≥ fb.capacity ∧ ¬drop_oldest_on_full then
    (Result.ERROR_OUT_OF_MEMORY, fb)
  else
    let fb1 : FrameBuffer :=
      if fb.queue.length ≥ fb.capacity ∧ fb.queue ≠ [] then
        { fb with queue := fb.queue.tail,
                  stats := { fb.stats with frames_dropped := fb.stats.frames_dropped + 1 } }
      else fb
    let timing : FrameTiming :=
      { arrival_time := now
        target_time := frame.pts
        latency := frame.pts - now
        is_late := now > frame.pts }
    let buffered : BufferedFrame :=
      { frame := { frame with data := copyFrameData fb1.next_alloc frame }
        timing := timing }
    (Result.SUCCESS,
     { fb1 with
        queue := fb1.queue ++ [buffered]
        next_alloc := fb1.next_alloc + 1
        stats := { fb1.stats with
                    frames_pushed := fb1.stats.frames_pushed + 1
                    frames_late := fb1.stats.frames_late +
                      (if timing.is_late then 1 else 0) } })

/-- `FrameBuffer::pop` (frame_buffer.cpp:93–152), sequential semantics:
with a non-empty queue the head is dequeued, returned by move, and
retained (deep-copied) as the last frame; with an empty queue the timed
wait expires and the retained last frame, if any, is returned as a deep
copy with `frames_repeated` incremented, else `ERROR_TIMEOUT`.
Returns `(result, frame written to the out-parameter, new state)`. -/
def FrameBuffer.pop (fb : FrameBuffer) : Result × Option VideoFrame × FrameBuffer :=
  match fb.queue with
  | [] =>
      match fb.last_frame with
      | some lf =>
          (Result.SUCCESS, some (copyIfData fb.next_alloc lf.frame),
           { fb with
              next_alloc := fb.next_alloc + 1
              stats := { fb.stats with
                          frames_repeated := fb.stats.frames_repeated + 1 } })
      | none => (Result.ERROR_TIMEOUT, none, fb)
  | buffered :: rest =>
      (Result.SUCCESS, some buffered.frame,
       { fb with
          queue := rest
          last_frame := some { buffered with
                                frame := copyIfData fb.next_alloc buffered.frame }
          next_alloc := fb.next_alloc + 1
          stats := { fb.stats with frames_popped := fb.stats.frames_popped + 1 } })

/-- The `Duration diff` computation of `getFrameByPTS`
(frame_buffer.cpp:179–181). -/
def ptsDiff (pts target : Int) : Int :=
  if pts > target then pts - target else target - pts

/-- The scan loop of `FrameBuffer::getFrameByPTS` (frame_buffer.cpp:173–204):
frames are moved one by one into a temporary queue; on the first frame
within tolerance that frame is copied to the out-parameter, itself pushed
onto the temporary queue as well ("restore queue"), and the loop breaks;
the remainder is then appended and the temporary queue becomes the queue. -/
def scanPTS (target_pts tolerance : Int) :
    List BufferedFrame → List BufferedFrame → Option VideoFrame × List BufferedFrame
  | [], temp => (none, temp)
  | buffered :: rest, temp =>
      if ptsDiff buffered.frame.pts target_pts ≤ tolerance then
        (some buffered.frame, (temp ++ [buffered]) ++ rest)
      else scanPTS target_pts tolerance rest (temp ++ [buffered])

/-- `FrameBuffer::getFrameByPTS` (frame_buffer.cpp:169–211). -/
def FrameBuffer.getFrameByPTS (fb : FrameBuffer) (target_pts tolerance : Int) :
    Result × Option VideoFrame × FrameBuffer :=
  match scanPTS target_pts tolerance fb.queue [] with
  | (some f, q) => (Result.SUCCESS, some f, { fb with queue := q })
  | (none, q) => (Result.ERROR_NOT_FOUND, none, { fb with queue := q })

/-- `FrameBuffer::clear` (frame_buffer.cpp:223–242): drops every queued
frame and releases the retained last frame — but `m_has_last_frame` is
cleared only when the retained frame's `data` pointer is non-null, and no
statistics counter is updated. -/
def FrameBuffer.clear (fb : FrameBuffer) : FrameBuffer :=
  { fb with
     queue := []
     last_frame := match fb.last_frame with
       | some lf => if lf.frame.data.isSome then none else some lf
       | none => none }

/-- One client operation on the frame buffer. -/
inductive FBOp where
  | push (frame : VideoFrame) (drop_oldest_on_full : Bool) (now : Int)
  | pop
  | getByPTS (target_pts tolerance : Int)
  | clear
  deriving DecidableEq, Repr

/-- State transition of one operation (results discarded). -/
def FrameBuffer.step (fb : FrameBuffer) : FBOp → FrameBuffer
  | FBOp.push f d now => (fb.push f d now).2
  | FBOp.pop => fb.pop.2.2
  | FBOp.getByPTS t tol => (fb.getFrameByPTS t tol).2.2
  | FBOp.clear => fb.clear

/-- Run a sequence of operations. -/
def FrameBuffer.run (fb : FrameBuffer) (ops : List FBOp) : FrameBuffer :=
  ops.foldl FrameBuffer.step fb

/-- One step of the run extended with a history variable: the second
component records the frame returned by the most recent `pop` call that
returned `SUCCESS` (the "most recently successfully popped frame"). -/
def FrameBuffer.stepPopped (s : FrameBuffer × Option VideoFrame) (op : FBOp) :
    FrameBuffer × Option VideoFrame :=
  match op with
  | FBOp.pop =>
      match s.1.pop with
      | (Result.SUCCESS, some f, fb1) => (fb1, some f)
      | (_, _, fb1) => (fb1, s.2)
  | op => (s.1.step op, s.2)

/-- `run` extended with the popped-frame history variable. -/
def FrameBuffer.runPopped (s : FrameBuffer × Option VideoFrame) (ops : List FBOp) :
    FrameBuffer × Option VideoFrame :=
  ops.foldl FrameBuffer.stepPopped s

/-- The statistics accounting of claim C3:
`frames_pushed − frames_popped − frames_dropped` equals the live queue
size. -/
def FrameBuffer.balanced (fb : FrameBuffer) : Prop :=
  (fb.stats.frames_pushed : Int) - fb.stats.frames_popped - fb.stats.frames_dropped =
    fb.queue.length

instance (fb : FrameBuffer) : Decidable fb.balanced :=
  inferInstanceAs (Decidable (_ = _))

/-- `|pts − target| ≤ tolerance` as the scan's boolean test. -/
def withinTol (target_pts tolerance : Int) (bf : BufferedFrame) : Bool :=
  decide (ptsDiff bf.frame.pts target_pts ≤ tolerance)

/-- "Deep equal" as used by claim C4: same width, height, format, PTS,
HDR metadata, interlace flag, size and byte content. -/
def frameDeepEq (a b : VideoFrame) : Bool :=
  a.width == b.width && a.height == b.height && a.format == b.format &&
  a.pts == b.pts && a.hdr_metadata == b.hdr_metadata &&
  a.interlaced == b.interlaced && a.size == b.size &&
  (a.data.map Buffer.bytes) == (b.data.map Buffer.bytes)

/-- Two frames share a data buffer iff both point at the same allocation. -/
def sharesBuffer (a b : VideoFrame) : Bool :=
  match a.data, b.data with
  | some x, some y => x.id == y.id
  | _, _ => false

/-- Well-formedness of one frame relative to the allocation counter:
a non-null buffer was allocated earlier (`id < n`), is non-empty
(`size > 0`, as every buffer the frame buffer stores was created under
that test) and holds at most `size` bytes. -/
def frameWF (f : VideoFrame) (n : Nat) : Prop :=
  match f.data with
  | some b => 0 < f.size ∧ b.bytes.length ≤ f.size ∧ b.id < n
  | none => True

/-- Invariant tying the retained last frame to the most recently popped
frame (the history variable `g`): the retained copy is deep-equal to it,
in a distinct buffer, and all involved allocations predate `next_alloc`. -/
def FrameBuffer.popInv (fb : FrameBuffer) (g : Option VideoFrame) : Prop :=
  (∀ bf ∈ fb.queue, frameWF bf.frame fb.next_alloc) ∧
  (∀ lf ∈ fb.last_frame, frameWF lf.frame fb.next_alloc ∧
     ∃ f, g = some f ∧ frameDeepEq lf.frame f = true ∧
          sharesBuffer lf.frame f = false ∧ frameWF f fb.next_alloc)

/-- A concrete frame used by the counterexample runs. -/
def testFrame (p : Int) : VideoFrame :=
  { data := some ⟨0, [1, 2, 3]⟩, size := 3, pts := p }

/-- A buffer holding two frames, PTS 10 at the front and PTS 0 behind it
(obtained by two pushes into an empty capacity-3 buffer). -/
def fbC2 : FrameBuffer :=
  (FrameBuffer.init 3).run
    [FBOp.push (testFrame 10) true 0, FBOp.push (testFrame 0) true 0]

/-! ## Frame scheduler — `src/sync/frame_scheduler.cpp`

Rates and the conversion accumulator are C++ `float`/`double`; they are
modelled as exact rationals.  The scheduler also keeps time points and
time-derived statistics (`m_last_presentation_time`,
`m_presentation_history`, latency/interval averages); the claims concern
only the present/drop decision, which reads none of them, so they are not
modelled. -/

/-- `ares::sync::SchedulingAlgorithm` from `frame_scheduler.h`. -/
inductive SchedulingAlgorithm where
  | IMMEDIATE
  | VSYNC
  | ADAPTIVE
  | FRAME_PACING
  deriving DecidableEq, Repr

/-- `FrameScheduler` state (frame_scheduler.h), time bookkeeping omitted. -/
structure FrameScheduler where
  display_refresh_rate : ℚ := 60
  source_frame_rate : ℚ := 60
  algorithm : SchedulingAlgorithm := SchedulingAlgorithm.FRAME_PACING
  vrr_enabled : Bool := false
  frame_accumulator : ℚ := 0
  first_frame : Bool := true
  frame_number : Nat := 0
  frames_scheduled : Nat := 0
  frames_dropped : Nat := 0
  initialized : Bool := false
  deriving DecidableEq, Repr

/-- `FrameScheduler::initialize` (frame_scheduler.cpp:16–54): validates the
refresh rate, sets `source = display` ("assume matching initially"),
resets the accumulator, counters and the first-frame flag. -/
def FrameScheduler.setup (s : FrameScheduler) (display_refresh_rate : ℚ)
    (algorithm : SchedulingAlgorithm) : Result × FrameScheduler :=
  if display_refresh_rate ≤ 0 then (Result.ERROR_INVALID_PARAMETER, s)
  else
    (Result.SUCCESS,
     { s with display_refresh_rate := display_refresh_rate
              source_frame_rate := display_refresh_rate
              algorithm := algorithm
              first_frame := true
              frame_number := 0
              frame_accumulator := 0
              frames_scheduled := 0
              frames_dropped := 0
              initialized := true })

/-- `FrameScheduler::setSourceFrameRate` (frame_scheduler.cpp:123–134):
rejects non-positive rates, otherwise sets the rate and resets the
accumulator. -/
def FrameScheduler.setSourceFrameRate (s : FrameScheduler) (fps : ℚ) : FrameScheduler :=
  if fps ≤ 0 then s
  else { s with source_frame_rate := fps, frame_accumulator := 0 }

/-- `FrameScheduler::shouldDropFrame` (frame_scheduler.cpp:213–232):
`acc += source/display; if (acc ≥ 1) { acc -= 1; return true; }`. -/
def FrameScheduler.shouldDropFrame (s : FrameScheduler) : Bool × FrameScheduler :=
  let acc := s.frame_accumulator + s.source_frame_rate / s.display_refresh_rate
  if acc ≥ 1 then (true, { s with frame_accumulator := acc - 1 })
  else (false, { s with frame_accumulator := acc })

/-- `FrameScheduler::scheduleFrame` (frame_scheduler.cpp:56–121), with the
waiting and time-derived statistics elided: the `Bool` records whether the
frame is presented (`frames_scheduled`) rather than dropped.  The frame
argument is unused by the decision logic and omitted. -/
def FrameScheduler.scheduleFrame (s : FrameScheduler) : Result × Bool × FrameScheduler :=
  if s.initialized = false then (Result.ERROR_NOT_INITIALIZED, false, s)
  else if s.first_frame = true then
    (Result.SUCCESS, true,
     { s with first_frame := false, frames_scheduled := s.frames_scheduled + 1 })
  else if s.source_frame_rate ≠ s.display_refresh_rate then
    match s.shouldDropFrame with
    | (true, s1) =>
        (Result.SUCCESS, false,
         { s1 with frames_dropped := s1.frames_dropped + 1
                   frame_number := s1.frame_number + 1 })
    | (false, s1) =>
        (Result.SUCCESS, true,
         { s1 with frames_scheduled := s1.frames_scheduled + 1
                   frame_number := s1.frame_number + 1 })
  else
    (Result.SUCCESS, true,
     { s with frames_scheduled := s.frames_scheduled + 1
              frame_number := s.frame_number + 1 })

/-- Number of frames presented (not dropped) over the next `n`
`scheduleFrame` calls. -/
def FrameScheduler.presentedCount (s : FrameScheduler) : Nat → Nat
  | 0 => 0
  | n + 1 =>
      match s.scheduleFrame with
      | (_, presented, s1) => (if presented then 1 else 0) + s1.presentedCount n

/-- Counterexample scheduler: initialized at 60 Hz, source rate then set
to 24 fps. -/
def schedC1 : FrameScheduler :=
  (((({} : FrameScheduler).setup 60 SchedulingAlgorithm.FRAME_PACING).2).setSourceFrameRate 24)

/-- Witness scheduler: mid-stream (past the baseline frame), 24 fps source
on a 60 Hz display, accumulator 0. -/
def schedW : FrameScheduler :=
  { initialized := true, first_frame := false,
    source_frame_rate := 24, display_refresh_rate := 60 }


/-! ## EDID parsing — `src/display/edid_parser.cpp`

EDID bytes are a `List Nat`; out-of-range reads (the C++ code indexes raw
pointers) are resolved to 0 by `getD`.  The floating-point luminance
decodings (`50·2^(b/32)` etc., via `powf`) are not modelled — no claim
concerns their values, only the boolean capability bits and the parse
result. -/

/-- `ares::DisplayMode` from `include/ares/types.h` (refresh as `ℚ`). -/
structure DisplayMode where
  width : Nat := 0
  height : Nat := 0
  refresh_rate : ℚ := 0
  interlaced : Bool := false
  deriving DecidableEq, Repr

/-- The capability fields of `EDIDParser` filled in by parsing
(`m_capabilities`); strings are byte lists. -/
structure DisplayCapabilities where
  manufacturer : List Nat := []
  serial_number : Nat := 0
  manufacture_week : Nat := 0
  manufacture_year : Nat := 0
  model_name : List Nat := []
  supports_hdr10 : Bool := false
  supports_hlg : Bool := false
  supports_dolby_vision : Bool := false
  supports_bt2020 : Bool := false
  supports_dcip3 : Bool := false
  supports_vrr : Bool := false
  vrr_min_refresh : Nat := 0
  vrr_max_refresh : Nat := 0
  deriving DecidableEq, Repr

/-- `EDIDParser::verifyChecksum` (edid_parser.cpp:384–390): the `uint8_t`
running sum of the first `size` bytes must be zero (i.e. the byte sum is
0 mod 256). -/
def verifyChecksum (data : List Nat) (size : Nat) : Bool :=
  ((data.take size).foldl (fun acc b => (acc + b) % 256) 0) == 0

/-- `EDIDParser::decodeManufacturerID` (edid_parser.cpp:392–401):
three packed 5-bit letters, each `'@' + value` (`'@' = 64`). -/
def decodeManufacturerID (id : Nat) : List Nat :=
  [64 + id / 1024 % 32, 64 + id / 32 % 32, 64 + id % 32]

/-- `EDIDParser::parseBaseBlock` (edid_parser.cpp:150–173); always returns
`SUCCESS` in the source, so only the capability updates are modelled. -/
def parseBaseBlock (data : List Nat) (caps : DisplayCapabilities) : DisplayCapabilities :=
  { caps with
      manufacturer := decodeManufacturerID (data.getD 8 0 * 256 + data.getD 9 0),
      serial_number := data.getD 12 0 + data.getD 13 0 * 256 +
        data.getD 14 0 * 65536 + data.getD 15 0 * 16777216,
      manufacture_week := data.getD 16 0,
      manufacture_year := 1990 + data.getD 17 0 }

/-- `EDIDParser::parseStandardTimings` (edid_parser.cpp:175–211), on the
8-entry table starting at EDID offset 38 (`data` is that slice).
`(b >> 6) & 3` is `b / 64 % 4`; `b & 0x3F` is `b % 64`. -/
def parseStandardTimings (data : List Nat) : List DisplayMode :=
  (List.range 8).foldl (fun modes i =>
    let byte1 := data.getD (i * 2) 0
    let byte2 := data.getD (i * 2 + 1) 0
    if byte1 = 1 ∧ byte2 = 1 then modes
    else
      let h_res := (byte1 + 31) * 8
      let aspect := byte2 / 64 % 4
      let v_res := if aspect = 0 then h_res * 10 / 16
        else if aspect = 1 then h_res * 3 / 4
        else if aspect = 2 then h_res * 4 / 5
        else h_res * 9 / 16
      modes ++ [{ width := h_res, height := v_res,
                  refresh_rate := (byte2 % 64 : ℚ) + 60 }]) []

/-- `EDIDParser::parseDetailedTiming` (edid_parser.cpp:213–266) on one
18-byte descriptor (`block` is the slice at its offset).  A zero pixel
clock marks a display descriptor (type `0xFC` = monitor name, 13 ASCII at
+5, trailing spaces/CR/LF stripped); otherwise a detailed timing mode is
produced (`(b & 0xF0) << 4` is `b / 16 * 256`; `(b & 0x0F) << 8` is
`b % 16 * 256`). -/
def parseDetailedTiming (block : List Nat) (caps : DisplayCapabilities) :
    DisplayCapabilities × Option DisplayMode :=
  let pixel_clock := block.getD 0 0 + block.getD 1 0 * 256
  if pixel_clock = 0 then
    if block.getD 3 0 = 0xFC then
      let raw := (block.drop 5).take 13
      let name := (raw.reverse.dropWhile (fun c => c = 32 ∨ c = 10 ∨ c = 13)).reverse
      ({ caps with model_name := name }, none)
    else (caps, none)
  else
    let h_active := block.getD 2 0 + block.getD 4 0 / 16 * 256
    let v_active := block.getD 5 0 + block.getD 7 0 / 16 * 256
    let h_blank := block.getD 3 0 + block.getD 4 0 % 16 * 256
    let v_blank := block.getD 6 0 + block.getD 7 0 % 16 * 256
    let h_total := h_active + h_blank
    let v_total := v_active + v_blank
    (caps,
     some { width := h_active, height := v_active,
            refresh_rate := (pixel_clock * 10000 : ℚ) / (h_total * v_total : Nat),
            interlaced := block.getD 17 0 / 128 % 2 == 1 })

/-- `EDIDParser::parseHDRStaticMetadata` (edid_parser.cpp:339–382); only
the EOTF capability bits are modelled (bit 2 = PQ/HDR10, bit 3 = HLG);
the luminance values use `powf` and are not modelled. -/
def parseHDRStaticMetadata (block_data : List Nat) (length : Nat)
    (caps : DisplayCapabilities) : DisplayCapabilities :=
  if length < 3 then caps
  else
    let eotf := block_data.getD 1 0
    { caps with
        supports_hdr10 := eotf / 4 % 2 == 1,
        supports_hlg := eotf / 8 % 2 == 1 }

/-- The data-block walk of `EDIDParser::parseCEAExtension`
(edid_parser.cpp:274–336): `pos` advances by `length + 1 ≥ 1` per block,
so 128 iterations of fuel model the unbounded `while`. -/
def ceaLoop (ext : List Nat) (dtd_offset : Nat) :
    Nat → Nat → DisplayCapabilities → DisplayCapabilities
  | 0, _, caps => caps
  | fuel + 1, pos, caps =>
      if pos < dtd_offset ∧ pos < 128 then
        let header := ext.getD pos 0
        let tag := header / 32 % 8
        let len := header % 32
        if dtd_offset < pos + len + 1 then caps
        else
          let block_data := ext.drop (pos + 1)
          let caps :=
            if tag = 7 ∧ 0 < len then
              let ext_tag := block_data.getD 0 0
              if ext_tag = 5 then
                if 2 ≤ len then
                  { caps with
                      supports_bt2020 := block_data.getD 1 0 / 8 % 2 == 1,
                      supports_dcip3 := block_data.getD 1 0 / 128 % 2 == 1 }
                else caps
              else if ext_tag = 6 then parseHDRStaticMetadata block_data len caps
              else caps
            else if tag = 3 ∧ 3 ≤ len then
              let oui := block_data.getD 0 0 + block_data.getD 1 0 * 256 +
                block_data.getD 2 0 * 65536
              if oui = 0xC45DD8 ∧ 7 ≤ len then
                if 8 ≤ len then
                  let vrr_byte := block_data.getD 7 0
                  let caps2 := { caps with supports_vrr := vrr_byte / 64 % 2 == 1 }
                  if caps2.supports_vrr ∧ 10 ≤ len then
                    { caps2 with
                        vrr_min_refresh := block_data.getD 8 0 % 64,
                        vrr_max_refresh := block_data.getD 9 0 * 2 }
                  else caps2
                else caps
              else caps
            else caps
          ceaLoop ext dtd_offset fuel (pos + len + 1) caps
      else caps

/-- `EDIDParser::parseCEAExtension` (edid_parser.cpp:268–337). -/
def parseCEAExtension (ext : List Nat) (caps : DisplayCapabilities) :
    DisplayCapabilities :=
  ceaLoop ext (ext.getD 2 0) 128 4 caps

/-- The extension loop of `EDIDParser::parseEDIDData`
(edid_parser.cpp:104–119): iterate `i` while `i < ext_count` and
`(i+1)·128 < size`; an extension block failing its checksum is skipped
(`continue`) — it is never a reason to reject. -/
def extLoop (data : List Nat) : Nat → Nat → DisplayCapabilities → DisplayCapabilities
  | _, 0, caps => caps
  | i, remaining + 1, caps =>
      if (i + 1) * 128 < data.length then
        let ext := (data.drop ((i + 1) * 128)).take 128
        let caps :=
          if verifyChecksum ext 128 then
            if ext.getD 0 0 = 2 then parseCEAExtension ext caps else caps
          else caps
        extLoop data (i + 1) remaining caps
      else caps

/-- `EDIDParser::parseEDIDData` (edid_parser.cpp:67–148): size check,
header check, base-block checksum check (each rejecting with
`ERROR_INVALID_DATA`), then base block, standard timings, the four
detailed descriptors at offsets 54/72/90/108, and the extension blocks;
returns `SUCCESS` with the capabilities and collected modes. -/
def parseEDIDData (data : List Nat) :
    Result × DisplayCapabilities × List DisplayMode :=
  if data.length < 128 then (Result.ERROR_INVALID_DATA, {}, [])
  else if data.take 8 ≠ [0x00, 0xFF, 0xFF, 0xFF, 0xFF, 0xFF, 0xFF, 0x00] then
    (Result.ERROR_INVALID_DATA, {}, [])
  else if ¬ verifyChecksum data 128 then (Result.ERROR_INVALID_DATA, {}, [])
  else
    let caps0 := parseBaseBlock data {}
    let modes0 := parseStandardTimings (data.drop 38)
    let st := (List.range 4).foldl
      (fun (st : DisplayCapabilities × List DisplayMode) i =>
        match parseDetailedTiming (data.drop (54 + i * 18)) st.1 with
        | (c, some m) => (c, st.2 ++ [m])
        | (c, none) => (c, st.2)) (caps0, modes0)
    let caps1 := extLoop data 0 (data.getD 126 0) st.1
    (Result.SUCCESS, caps1, st.2)

/-- C7 counterexample input: a 256-byte EDID whose base block is valid
(header, checksum byte 5, one declared extension) and whose extension
block (`[2, 0, 0, …]`, byte sum 2) fails its checksum. -/
def edidBadExt : List Nat :=
  ([0x00, 0xFF, 0xFF, 0xFF, 0xFF, 0xFF, 0xFF, 0x00] ++
   List.replicate 118 0 ++ [1, 5]) ++ ([2] ++ List.replicate 127 0)

/-- C7 witness input: a 128-byte EDID with a valid header, no declared
extensions and checksum byte 6 (byte sum `6·255 + 6 = 1536 = 6·256`). -/
def edidGood : List Nat :=
  [0x00, 0xFF, 0xFF, 0xFF, 0xFF, 0xFF, 0xFF, 0x00] ++
  List.replicate 118 0 ++ [0, 6]


/-! ## DeckLink capture and frame-rate matcher —
`src/capture/decklink_capture.{h,cpp}`, `src/display/frame_rate_matcher.cpp`

`decklink_capture.h` declares `void detectFrameRate(int64_t pts)` and the
fields `m_detected_frame_rate = 0.0`, `m_frame_rate_stable = false`, but
`decklink_capture.cpp` neither defines nor calls `detectFrameRate`, and no
other member function writes those fields; the embedding therefore has no
operation that writes them.  Device-SDK effects (StartStreams etc.) enter
as boolean outcomes; wall-clock-derived statistics (`current_fps`) are not
modelled (no claim concerns them). -/

/-- `DeckLinkCapture::QueuedFrame` from `decklink_capture.h`. -/
structure QueuedFrame where
  data : Option Buffer := none
  size : Nat := 0
  width : Nat := 0
  height : Nat := 0
  format : PixelFormat := PixelFormat.UNKNOWN
  pts : Int := 0
  hdr_metadata : HDRMetadata := {}
  deriving DecidableEq, Repr

/-- `DeckLinkCapture::Stats` counters (floating `current_fps` omitted). -/
structure DLStats where
  frames_captured : Nat := 0
  frames_dropped : Nat := 0
  detected_fps : ℚ := 0
  frame_rate_stable : Bool := false
  queue_size : Nat := 0
  deriving DecidableEq, Repr

/-- `DeckLinkCapture` state (`decklink_capture.h`). -/
structure DeckLinkCapture where
  initialized : Bool := false
  running : Bool := false
  frame_queue : List QueuedFrame := []
  stats : DLStats := {}
  detected_frame_rate : ℚ := 0
  frame_rate_stable : Bool := false
  last_pts : Int := 0
  frame_intervals : List ℚ := []
  deriving DecidableEq, Repr

/-- `DeckLinkCapture::MAX_QUEUE_SIZE`. -/
def MAX_QUEUE_SIZE : Nat := 5

/-- One externally triggered capture operation.  `setup`/`start` carry the
device outcome (`initialize`/`StartStreams` succeeding); `onFrameReceived`
carries the frame the vendor callback delivers (already copied off the
device buffer). -/
inductive CapOp where
  | setup (device_ok : Bool)
  | start (streams_ok : Bool)
  | stop
  | getFrame
  | onFrameReceived (q : QueuedFrame)
  deriving DecidableEq, Repr

/-- State effects of the `DeckLinkCapture` member functions
(decklink_capture.cpp:126–411).  None of them touches
`detected_frame_rate` or `frame_rate_stable`, mirroring the source, where
`detectFrameRate` has no definition and no caller. -/
def DeckLinkCapture.step (c : DeckLinkCapture) : CapOp → DeckLinkCapture
  | CapOp.setup ok => if ok then { c with initialized := true } else c
  | CapOp.start ok =>
      if c.initialized = false then c
      else if c.running = true then c
      else if ok then { c with running := true } else c
  | CapOp.stop =>
      if c.running = false then c
      else { c with running := false, frame_queue := [] }
  | CapOp.getFrame =>
      match c.frame_queue with
      | [] => c
      | _ :: rest => { c with frame_queue := rest }
  | CapOp.onFrameReceived q =>
      if c.running = false then c
      else
        let dropped := MAX_QUEUE_SIZE ≤ c.frame_queue.length
        { c with
            frame_queue := (if dropped then c.frame_queue.tail else c.frame_queue) ++ [q],
            stats := { c.stats with
                        frames_dropped :=
                          c.stats.frames_dropped + (if dropped then 1 else 0),
                        frames_captured := c.stats.frames_captured + 1 } }

/-- `DeckLinkCapture::getDetectedFrameRate` (decklink_capture.h:66). -/
def getDetectedFrameRate (c : DeckLinkCapture) : ℚ := c.detected_frame_rate

/-- `DeckLinkCapture::isFrameRateStable` (decklink_capture.h:67). -/
def isFrameRateStable (c : DeckLinkCapture) : Bool := c.frame_rate_stable

/-- `FrameRateMatcher::Stats` (frame_rate_matcher.h; the
`last_switch_reason` string is omitted). -/
structure FRMStats where
  mode_switches : Nat := 0
  current_source_fps : ℚ := 0
  current_display_refresh : ℚ := 0
  mode_matched : Bool := false
  deriving DecidableEq, Repr

/-- `FrameRateMatcher` state; `has_display`/`has_capture` model the
non-nullness of `m_display`/`m_capture`. -/
structure FrameRateMatcher where
  enabled : Bool := true
  has_display : Bool := false
  has_capture : Bool := false
  last_detected_fps : ℚ := 0
  last_was_stable : Bool := false
  stats : FRMStats := {}
  deriving DecidableEq, Repr

/-- `FrameRateMatcher::update` (frame_rate_matcher.cpp:21–84).
`current_mode` stands for `m_display->getCurrentMode()`; `bestMatch` for
`findBestMatch` (whose mode search feeds only the code after the
stability gate); `setModeRes` for `DRMDisplay::setMode`.  The last `Nat`
counts the `setMode` calls the invocation makes. -/
def FrameRateMatcher.update (m : FrameRateMatcher) (c : DeckLinkCapture)
    (current_mode : DisplayMode) (bestMatch : ℚ → DisplayMode)
    (setModeRes : DisplayMode → Result) : Result × FrameRateMatcher × Nat :=
  if m.enabled = false ∨ m.has_display = false ∨ m.has_capture = false then
    (Result.SUCCESS, m, 0)
  else
    let detected_fps := getDetectedFrameRate c
    let is_stable := isFrameRateStable c
    let m1 := { m with stats := { m.stats with current_source_fps := detected_fps } }
    if is_stable = false then (Result.SUCCESS, m1, 0)
    else if |detected_fps - m1.last_detected_fps| < 1/2 ∧ m1.last_was_stable = true then
      (Result.SUCCESS, m1, 0)
    else
      let best := bestMatch detected_fps
      if |current_mode.refresh_rate - best.refresh_rate| < 1/2 then
        (Result.SUCCESS,
         { m1 with
             stats := { m1.stats with mode_matched := true },
             last_detected_fps := detected_fps,
             last_was_stable := is_stable }, 0)
      else if best.refresh_rate = 0 then
        (Result.ERROR_NOT_FOUND,
         { m1 with stats := { m1.stats with mode_matched := false } }, 0)
      else
        match setModeRes best with
        | Result.SUCCESS =>
            (Result.SUCCESS,
             { m1 with
                 stats := { m1.stats with
                             mode_switches := m1.stats.mode_switches + 1,
                             current_display_refresh := best.refresh_rate,
                             mode_matched := true },
                 last_detected_fps := detected_fps,
                 last_was_stable := is_stable }, 1)
        | r =>
            (r,
             { m1 with
                 stats := { m1.stats with mode_matched := false },
                 last_detected_fps := detected_fps,
                 last_was_stable := is_stable }, 1)

/-- Capture + matcher with a history variable counting every
`DRMDisplay::setMode` call the matcher ever made. -/
structure AVSystem where
  capture : DeckLinkCapture := {}
  matcher : FrameRateMatcher := {}
  set_mode_calls : Nat := 0

/-- One system event: a capture operation, wiring the matcher to its
collaborators (`FrameRateMatcher::initialize`), toggling it
(`setEnabled`), or a periodic `update` call against the current mode. -/
inductive SysOp where
  | cap (op : CapOp)
  | matcherSetup (display_ok capture_ok : Bool)
  | setEnabled (b : Bool)
  | matcherUpdate (current_mode : DisplayMode)

/-- System transition; `bestMatch`/`setModeRes` parameterize the display
collaborator as in `FrameRateMatcher.update`. -/
def AVSystem.step (bestMatch : ℚ → DisplayMode) (setModeRes : DisplayMode → Result)
    (s : AVSystem) : SysOp → AVSystem
  | SysOp.cap op => { s with capture := s.capture.step op }
  | SysOp.matcherSetup dok cok =>
      if dok ∧ cok then
        { s with matcher := { s.matcher with has_display := true, has_capture := true } }
      else s
  | SysOp.setEnabled b => { s with matcher := { s.matcher with enabled := b } }
  | SysOp.matcherUpdate mode =>
      match s.matcher.update s.capture mode bestMatch setModeRes with
      | (_, m1, calls) =>
          { s with matcher := m1, set_mode_calls := s.set_mode_calls + calls }

/-- Run a sequence of system events from the freshly constructed state. -/
def AVSystem.run (bestMatch : ℚ → DisplayMode) (setModeRes : DisplayMode → Result)
    (ops : List SysOp) : AVSystem :=
  ops.foldl (AVSystem.step bestMatch setModeRes) {}


/-! ## Processing pipeline — `src/processing/processing_pipeline.cpp`

`processFrame` runs Stage 0 (SDR/HDR auto-detection via the
function-static `last_was_hdr`), black-bar detection, crop, NLS warping,
tone mapping and OSD compositing.  The GPU collaborators
(`NLSShader::processFrame`, `PlaceboRenderer::processFrame`,
`OSDCompositor::composite`) and the black-bar detector's crop region are
parameters: each collaborator is a function giving the `Result` and the
frame it writes into its output argument.  `applyCrop` is translated
concretely.  Wall-clock statistics (`total_frame_time_ms`,
`avg_frame_time_ms`), the detector-owned stats fields and the menu
update/render side effects are omitted.  Reads or writes outside an
allocation are undefined behaviour in C++; the model pads short
`memcpy` reads with zeroes and lets writes extend the byte list. -/

/-- `ares::ColorGamut` (`include/ares/processing_config.h:19`). -/
inductive ColorGamut where
  | BT709
  | BT2020
  | DCI_P3
  | ADOBE_RGB
  deriving DecidableEq, Repr

/-- `CropRegion` (`black_bar_detector.h:12`); `top`/`bottom`/`left`/
`right` are C++ `int` (`confidence`/`is_symmetric` are unused by
`processFrame`). -/
structure CropRegion where
  top : Int := 0
  bottom : Int := 0
  left : Int := 0
  right : Int := 0
  deriving DecidableEq, Repr

/-- The field of `ColorConfig` that `processFrame` writes. -/
structure ColorConfig where
  input_gamut : ColorGamut := ColorGamut.BT2020
  deriving DecidableEq, Repr

/-- The field of `NLSConfig` that `processFrame` reads. -/
structure NLSConfig where
  enabled : Bool := false
  deriving DecidableEq, Repr

/-- The fields of `BlackBarConfig` that `processFrame` reads. -/
structure BlackBarConfig where
  enabled : Bool := true
  auto_crop : Bool := true
  deriving DecidableEq, Repr

/-- The parts of `ProcessingConfig` that `processFrame` touches. -/
structure ProcessingConfig where
  color : ColorConfig := {}
  nls : NLSConfig := {}
  black_bars : BlackBarConfig := {}
  deriving DecidableEq, Repr

/-- The dimension fields of `ProcessingPipeline::Stats` plus
`frames_processed` (the timing fields are wall-clock). -/
structure PPStats where
  frames_processed : Nat := 0
  input_width : Nat := 0
  input_height : Nat := 0
  after_crop_width : Nat := 0
  after_crop_height : Nat := 0
  after_nls_width : Nat := 0
  after_nls_height : Nat := 0
  output_width : Nat := 0
  output_height : Nat := 0
  deriving DecidableEq, Repr

/-- The `ProcessingPipeline` state read or written by `processFrame`:
`m_config`, the function-static `last_was_hdr`
(`processing_pipeline.cpp:209`), `m_nls_shader != nullptr`, the
persistent intermediate frames and `m_stats`.  `next_alloc` is the
allocation counter giving fresh buffers their identity. -/
structure ProcessingPipeline where
  initialized : Bool := false
  config : ProcessingConfig := {}
  last_was_hdr : Bool := false
  nls_shader : Bool := false
  cropped_frame : VideoFrame := {}
  warped_frame : VideoFrame := {}
  stats : PPStats := {}
  next_alloc : Nat := 0
  deriving DecidableEq, Repr

/-- `uint32_t cropped_width = input.width - crop.left - crop.right`
(`processing_pipeline.cpp:365`): signed crop values subtracted and
narrowed to `uint32_t`. -/
def cropDim (dim : Nat) (a b : Int) : Nat :=
  (((dim : Int) - a - b) % (2 ^ 32 : Int)).toNat

/-- One `memcpy`'d row of `applyCrop`: `cw` bytes starting at
`y * input.width + crop.left` (`y * input.width` wraps in `uint32_t`;
a read past the source — undefined in C++ — is padded with zeroes so
the write stays `cw` bytes wide). -/
def cropRow (src : List Nat) (width : Nat) (left : Int) (cw y : Nat) : List Nat :=
  let r := (src.drop (((y * width % 2 ^ 32 : Nat) : Int) + left).toNat).take cw
  r ++ List.replicate (cw - r.length) 0

/-- `ProcessingPipeline::createIntermediateFrame`
(`processing_pipeline.cpp:428`): fresh buffer of
`width * height * bytes_per_pixel` bytes.  `bytes_per_pixel` is 3: the
10-bit branch at line 437 compares against `PixelFormat::YUV420P_10BIT`,
an enumerator that does not exist in `ares::PixelFormat` (types.h), so
only the 3-byte case is representable.  The uninitialised `new[]`
allocation is modelled zero-filled. -/
def createIntermediateFrame (width height : Nat) (format : PixelFormat)
    (alloc : Nat) : VideoFrame :=
  let sz := width * height * 3
  { data := some ⟨alloc, List.replicate sz 0⟩, size := sz,
    width := width, height := height, format := format }

/-- `ProcessingPipeline::applyCrop` (`processing_pipeline.cpp:361`):
reallocate the output if absent or mis-sized, copy the rows between the
top and bottom bars, and carry over `pts` and `hdr_metadata`.  The
source body ends in an unconditional `return Result::SUCCESS`, so no
`Result` appears here.  Returns the new output frame and allocation
counter. -/
def applyCrop (crop : CropRegion) (input output : VideoFrame) (alloc : Nat) :
    VideoFrame × Nat :=
  let cw := cropDim input.width crop.left crop.right
  let ch := cropDim input.height crop.top crop.bottom
  let realloc : Bool := output.data = none ∨ output.width ≠ cw ∨ output.height ≠ ch
  let out0 := if realloc then createIntermediateFrame cw ch input.format alloc else output
  let alloc1 := if realloc then alloc + 1 else alloc
  let src := (input.data.map Buffer.bytes).getD []
  let top := (crop.top % (2 ^ 32 : Int)).toNat
  let hb := (((input.height : Int) - crop.bottom) % (2 ^ 32 : Int)).toNat
  let rows := ((List.range' top (hb - top)).map (cropRow src input.width crop.left cw)).flatten
  let dstBytes := (out0.data.map Buffer.bytes).getD []
  ({ out0 with
      data := some ⟨(out0.data.map Buffer.id).getD 0, rows ++ dstBytes.drop rows.length⟩,
      pts := input.pts,
      hdr_metadata := input.hdr_metadata }, alloc1)

/-- Stage 0 (`processing_pipeline.cpp:205`): detect SDR vs HDR; on a
change flip `m_config.color.input_gamut` and the static
`last_was_hdr`. -/
def stage0 (pp : ProcessingPipeline) (input : VideoFrame) : ProcessingPipeline :=
  let is_hdr := input.hdr_metadata.type != HDRType.NONE
  if is_hdr != pp.last_was_hdr then
    { pp with
        config := { pp.config with
          color := { input_gamut :=
            if is_hdr then ColorGamut.BT2020 else ColorGamut.BT709 } },
        last_was_hdr := is_hdr }
  else pp

/-- Stages 1–2 (`processing_pipeline.cpp:224`): `detectBlackBars` always
returns `SUCCESS` (the detector's own state is abstracted into the
`getCrop` parameter); the crop runs only when black bars are enabled,
auto-crop is on and the detected region is nonzero.  Returns the value
of the `current_frame` pointer and the updated pipeline. -/
def stageCrop (getCrop : CropRegion) (pp : ProcessingPipeline) (input : VideoFrame) :
    VideoFrame × ProcessingPipeline :=
  if pp.config.black_bars.enabled && pp.config.black_bars.auto_crop then
    if getCrop.top > 0 ∨ getCrop.bottom > 0 ∨ getCrop.left > 0 ∨ getCrop.right > 0 then
      let r := applyCrop getCrop input pp.cropped_frame pp.next_alloc
      (r.1, { pp with
                cropped_frame := r.1,
                next_alloc := r.2,
                stats := { pp.stats with
                             after_crop_width := r.1.width,
                             after_crop_height := r.1.height } })
    else
      (input, { pp with
                  stats := { pp.stats with
                               after_crop_width := input.width,
                               after_crop_height := input.height } })
  else
    (input, { pp with
                stats := { pp.stats with
                             after_crop_width := input.width,
                             after_crop_height := input.height } })

/-- Stage 3 (`processing_pipeline.cpp:259`): NLS warping when enabled
and the shader exists; on failure `processFrame` returns the shader's
error (the shader's write into `m_warped_frame` is modelled as its
returned frame). -/
def stageNLS (nls : VideoFrame → Result × VideoFrame) (pp : ProcessingPipeline)
    (cur : VideoFrame) : Result × VideoFrame × ProcessingPipeline :=
  if pp.config.nls.enabled && pp.nls_shader then
    match nls cur with
    | (Result.SUCCESS, wf) =>
        (Result.SUCCESS, wf,
         { pp with
             warped_frame := wf,
             stats := { pp.stats with
                          after_nls_width := wf.width,
                          after_nls_height := wf.height } })
    | (r, wf) => (r, cur, { pp with warped_frame := wf })
  else
    (Result.SUCCESS, cur,
     { pp with
         stats := { pp.stats with
                      after_nls_width := cur.width,
                      after_nls_height := cur.height } })

/-- Stage 4 (`processing_pipeline.cpp:279`): tone mapping runs only for
HDR content; for SDR, `tone_mapped_output = *current_frame` passes the
frame through untouched. -/
def toneStage (toneMap : VideoFrame → Result × VideoFrame) (is_hdr : Bool)
    (cur : VideoFrame) : Result × VideoFrame :=
  if is_hdr then toneMap cur else (Result.SUCCESS, cur)

/-- Stage 5 (`processing_pipeline.cpp:293`): composite the OSD when the
OSD system is wired (`osdActive`, for
`m_osd_renderer && m_osd_compositor && m_menu_system`) and the menu is
visible; a compositing failure falls back to the tone-mapped frame, so
this stage never fails. -/
def osdStage (compose : VideoFrame → Result × VideoFrame)
    (osdActive menuVisible : Bool) (tone_out : VideoFrame) : VideoFrame :=
  if osdActive && menuVisible then
    match compose tone_out with
    | (Result.SUCCESS, out) => out
    | _ => tone_out
  else tone_out

/-- The statistics bookkeeping at the end of `processFrame`
(`processing_pipeline.cpp:320`, `332`, `342`). -/
def finishFrame (pp : ProcessingPipeline) (input out : VideoFrame) : ProcessingPipeline :=
  { pp with stats := { pp.stats with
      output_width := out.width, output_height := out.height,
      frames_processed := pp.stats.frames_processed + 1,
      input_width := input.width, input_height := input.height } }

/-- `ProcessingPipeline::processFrame` (`processing_pipeline.cpp:197`).
Returns the `Result`, the `output` argument's final value (`none` when
an early error return leaves it unwritten) and the new pipeline
state. -/
def ProcessingPipeline.processFrame (getCrop : CropRegion)
    (nls toneMap compose : VideoFrame → Result × VideoFrame)
    (osdActive menuVisible : Bool)
    (pp : ProcessingPipeline) (input : VideoFrame) :
    Result × Option VideoFrame × ProcessingPipeline :=
  if pp.initialized = false then (Result.ERROR_NOT_INITIALIZED, none, pp)
  else
    let s0 := stage0 pp input
    let cs := stageCrop getCrop s0 input
    match stageNLS nls cs.2 cs.1 with
    | (Result.SUCCESS, cur, s3) =>
        match toneStage toneMap (input.hdr_metadata.type != HDRType.NONE) cur with
        | (Result.SUCCESS, tone_out) =>
            let out := osdStage compose osdActive menuVisible tone_out
            (Result.SUCCESS, some out, finishFrame s3 input out)
        | (r, _) => (r, none, s3)
    | (r, _, s3) => (r, none, s3)

/-- An already-initialised pipeline in its default configuration. -/
def ppC5 : ProcessingPipeline := { initialized := true }

/-- An SDR test frame (`hdr_metadata.type = NONE`). -/
def inC5 : VideoFrame := testFrame 0

/-- A trivially succeeding NLS collaborator. -/
def nlsC5 : VideoFrame → Result × VideoFrame := fun f => (Result.SUCCESS, f)

/-- A tone mapper that always fails — for SDR input it must never be
consulted. -/
def toneC5 : VideoFrame → Result × VideoFrame := fun f => (Result.ERROR_GENERIC, f)

/-- A trivially succeeding OSD compositor. -/
def composeC5 : VideoFrame → Result × VideoFrame := fun f => (Result.SUCCESS, f)

/-- The `current_frame` reaching Stage 4 in the witness run. -/
def curC5 : VideoFrame :=
  (stageNLS nlsC5 (stageCrop {} (stage0 ppC5 inC5) inC5).2
    (stageCrop {} (stage0 ppC5 inC5) inC5).1).2.1

/-- The pipeline state after Stage 3 in the witness run. -/
def s3C5 : ProcessingPipeline :=
  (stageNLS nlsC5 (stageCrop {} (stage0 ppC5 inC5) inC5).2
    (stageCrop {} (stage0 ppC5 inC5) inC5).1).2.2

/-! ## OSD menu system — `src/osd/menu_system.cpp`

Navigation state and handlers.  `MenuItem` keeps only the two flags the
navigation loops read; item values, labels, callbacks and rendering are
omitted, and `adjustValue` (which mutates the selected item's value
through pointers, never the navigation state) is modelled as the
identity on `MenuSystem`.  The `do/while` loops of
`navigateUp`/`navigateDown` are unbounded in C++; they are run on fuel
`items.length` (enough to visit every index once), and a run that would
never exit — or would index past the item vector, undefined behaviour —
is `none`. -/

/-- The `visible`/`enabled` display flags of `ares::MenuItem`
(`include/ares/osd_config.h:58`). -/
structure MenuItem where
  enabled : Bool := true
  visible : Bool := true
  deriving DecidableEq, Repr

/-- `ares::Menu` (`osd_config.h:70`): its `items` vector. -/
structure Menu where
  items : List MenuItem := []
  deriving DecidableEq, Repr

/-- `ares::OSDMenuStructure`: the tab list. -/
structure OSDMenuStructure where
  tabs : List Menu := []
  deriving DecidableEq, Repr

/-- The navigation state of `MenuSystem` (`menu_system.h:111-133`):
`m_menu`, `m_visible`, `m_adjusting_value` and the three `int`
indices. -/
structure MenuSystem where
  menu : OSDMenuStructure := {}
  visible : Bool := false
  adjusting_value : Bool := false
  current_tab : Int := 0
  current_item : Int := 0
  scroll_offset : Int := 0
  deriving DecidableEq, Repr

/-- `MenuSystem::getCurrentMenu` (`menu_system.cpp`): `none` when
`m_current_tab` is out of range. -/
def MenuSystem.getCurrentMenu (m : MenuSystem) : Option Menu :=
  if m.current_tab < 0 ∨ (m.menu.tabs.length : Int) ≤ m.current_tab then none
  else m.menu.tabs[m.current_tab.toNat]?

/-- Does index `j` name an item of `items` whose `visible` and `enabled`
flags are both set?  (The exit condition of the navigation loops.) -/
def goodAt (items : List MenuItem) (j : Int) : Bool :=
  match items[j.toNat]? with
  | some it => it.visible && it.enabled
  | none => false

/-- The navigation `do/while` loop: take one `step` of the index, stop
on a visible-and-enabled item, else repeat.  Fuel bounds the unbounded
C++ loop; `none` models a loop that never exits within the fuel or an
out-of-range item access (undefined behaviour in C++). -/
def findFrom (items : List MenuItem) (step : Int → Int) : Nat → Int → Option Int
  | 0, _ => none
  | fuel + 1, i =>
    match items[(step i).toNat]? with
    | none => none
    | some it =>
        if it.visible && it.enabled then some (step i)
        else findFrom items step fuel (step i)

/-- The index step of `navigateUp` (`menu_system.cpp:317-321`):
decrement, wrapping below zero to the last index. -/
def stepUp (n i : Int) : Int := if i - 1 < 0 then n - 1 else i - 1

/-- The index step of `navigateDown` (`menu_system.cpp:332-336`):
increment, wrapping at the item count to zero. -/
def stepDown (n i : Int) : Int := if n ≤ i + 1 then 0 else i + 1

/-- `MenuSystem::navigateUp` (`menu_system.cpp:313`): no current menu or
no items — return unchanged; otherwise run the skip loop upwards from
`m_current_item`. -/
def MenuSystem.navigateUp (m : MenuSystem) : Option MenuSystem :=
  match m.getCurrentMenu with
  | none => some m
  | some menu =>
      if menu.items.isEmpty then some m
      else
        match findFrom menu.items (stepUp (menu.items.length : Int))
                menu.items.length m.current_item with
        | some j => some { m with current_item := j }
        | none => none

/-- `MenuSystem::navigateDown` (`menu_system.cpp:328`): as `navigateUp`,
downwards. -/
def MenuSystem.navigateDown (m : MenuSystem) : Option MenuSystem :=
  match m.getCurrentMenu with
  | none => some m
  | some menu =>
      if menu.items.isEmpty then some m
      else
        match findFrom menu.items (stepDown (menu.items.length : Int))
                menu.items.length m.current_item with
        | some j => some { m with current_item := j }
        | none => none

/-- `MenuSystem::navigateLeft` (`menu_system.cpp:343`): adjusting a
value — only that value changes; otherwise previous tab (wrapping) and
`m_current_item = 0`, `m_scroll_offset = 0` unconditionally. -/
def MenuSystem.navigateLeft (m : MenuSystem) : MenuSystem :=
  if m.adjusting_value then m
  else
    { m with
        current_tab :=
          if m.current_tab - 1 < 0 then (m.menu.tabs.length : Int) - 1
          else m.current_tab - 1,
        current_item := 0,
        scroll_offset := 0 }

/-- `MenuSystem::navigateRight` (`menu_system.cpp:359`): next tab
(wrapping), resetting item and scroll to 0. -/
def MenuSystem.navigateRight (m : MenuSystem) : MenuSystem :=
  if m.adjusting_value then m
  else
    { m with
        current_tab :=
          if (m.menu.tabs.length : Int) ≤ m.current_tab + 1 then 0
          else m.current_tab + 1,
        current_item := 0,
        scroll_offset := 0 }

/-- `MenuSystem::navigateTab` (`menu_system.cpp:375`): jump to a valid
tab index, resetting item and scroll to 0. -/
def MenuSystem.navigateTab (m : MenuSystem) (tab_index : Int) : MenuSystem :=
  if 0 ≤ tab_index ∧ tab_index < (m.menu.tabs.length : Int) then
    { m with current_tab := tab_index, current_item := 0, scroll_offset := 0 }
  else m

/-- The navigation buttons of `input::RemoteButton` that the claim
covers; `NUM i` stands for `NUM_1 + i`, so `navigateTab` receives `i`
(`menu_system.cpp:523`, `tab_idx = button - NUM_1`). -/
inductive RemoteButton where
  | UP
  | DOWN
  | LEFT
  | RIGHT
  | NUM (i : Fin 8)
  deriving DecidableEq, Repr

/-- `MenuSystem::handleButton` (`menu_system.cpp:476`) restricted to the
navigation buttons, for a press: each fires only while the menu is
visible. -/
def MenuSystem.handleButton (m : MenuSystem) (b : RemoteButton) : Option MenuSystem :=
  match b with
  | RemoteButton.UP => if m.visible then m.navigateUp else some m
  | RemoteButton.DOWN => if m.visible then m.navigateDown else some m
  | RemoteButton.LEFT => if m.visible then some m.navigateLeft else some m
  | RemoteButton.RIGHT => if m.visible then some m.navigateRight else some m
  | RemoteButton.NUM i => if m.visible then some (m.navigateTab (i.val : Int)) else some m

/-- The claim's invariant, transcribed from the spec's words: the menu
is hidden, or `current_item` is the index of an item of the current tab
whose `visible` and `enabled` flags are both true. -/
def navGood (m : MenuSystem) : Bool :=
  !m.visible ||
  (match m.getCurrentMenu with
   | none => false
   | some menu =>
       decide (0 ≤ m.current_item) &&
       (match menu.items[m.current_item.toNat]? with
        | some it => it.visible && it.enabled
        | none => false))

/-- A two-tab menu: tab 0's only item is selectable, tab 1's only item
is disabled. -/
def menuC6 : MenuSystem :=
  { menu := { tabs := [{ items := [{}] }, { items := [{ enabled := false }] }] },
    visible := true }

/-- A one-tab menu whose first item is disabled and second enabled,
with the cursor on the disabled first item. -/
def menuC6W : MenuSystem :=
  { menu := { tabs := [{ items := [{ enabled := false }, {}] }] },
    visible := true }

/-- The single tab of `menuC6W`. -/
def tabC6W : Menu := { items := [{ enabled := false }, {}] }

/-! ## Theorems for claims C9 and C8 -/

/-- C9 counterexample.  The spec (scenario S5) says
`build("MVL","UP")` has data-size field `00 00 00 07`, i.e. the packet
`"ISCP" 00 00 00 10 00 00 00 07 01 00 00 00 '!' '1' 'M' 'V' 'L' 'U' 'P' 0D 0A`.
The code computes `data_size = len("!1MVLUP\r\n") = 9`, so the produced
packet differs (byte 11 is `09`, not `07`). -/
theorem buildEISCP_MVL_UP_ne_spec_packet :
    buildEISCPPacket [77, 86, 76] [85, 80] ≠
      [73, 83, 67, 80, 0, 0, 0, 16, 0, 0, 0, 7, 1, 0, 0, 0,
       33, 49, 77, 86, 76, 85, 80, 13, 10] := by
  decide

/-- C9 amended: `build("MVL","UP")` is the byte sequence
`"ISCP" 00 00 00 10 00 00 00 09 01 00 00 00 '!' '1' 'M' 'V' 'L' 'U' 'P' 0D 0A`
(data-size field `9`, counting `"!1"`, the command, the parameter and CRLF),
and parsing that packet back yields command `"MVL"` and parameter `"UP"`. -/
theorem buildEISCP_MVL_UP_bytes_and_roundtrip :
    buildEISCPPacket [77, 86, 76] [85, 80] =
      [73, 83, 67, 80, 0, 0, 0, 16, 0, 0, 0, 9, 1, 0, 0, 0,
       33, 49, 77, 86, 76, 85, 80, 13, 10] ∧
    parseEISCPPacket (buildEISCPPacket [77, 86, 76] [85, 80]) =
      some ([77, 86, 76], [85, 80]) := by
  decide

/-! ## Theorems for claim C2 — `getFrameByPTS` -/

/-- The scan loop returns the first in-tolerance frame (queue order) and
rebuilds the queue exactly as it was. -/
theorem scanPTS_spec (t tol : Int) (l temp : List BufferedFrame) :
    scanPTS t tol l temp =
      ((l.find? (withinTol t tol)).map (fun bf => bf.frame), temp ++ l) := by
  induction l generalizing temp with
  | nil => simp [scanPTS]
  | cons bf rest ih =>
      by_cases h : ptsDiff bf.frame.pts t ≤ tol
      · simp [scanPTS, h, List.find?_cons_of_pos, withinTol]
      · rw [scanPTS, if_neg h, ih, List.find?_cons_of_neg]
        · simp
        · simp [withinTol, h]

/-- C2 counterexample.  Queue (front to back) holds frames with PTS 10
and PTS 0; `getFrameByPTS(0, 10)` returns `Ok` with the PTS-10 frame even
though the PTS-0 frame is also within tolerance and strictly nearer, and
the queue keeps both frames (size stays 2 instead of decreasing to 1). -/
theorem getFrameByPTS_claim_counterexample :
    (fbC2.getFrameByPTS 0 10).1 = Result.SUCCESS ∧
    (∃ f, (fbC2.getFrameByPTS 0 10).2.1 = some f ∧ f.pts = 10) ∧
    (∃ bf ∈ fbC2.queue, bf.frame.pts = 0 ∧ ptsDiff bf.frame.pts 0 ≤ 10) ∧
    (fbC2.getFrameByPTS 0 10).2.2.queue.length = 2 ∧
    fbC2.queue.length = 2 := by
  decide

/-- C2 amended: `getFrameByPTS(target, tolerance)` scans the queue from
the front and returns `Ok` with (a copy of) the FIRST frame satisfying
`|pts − target| ≤ tolerance`, leaving the buffer completely unchanged;
when no queued frame is within tolerance it returns `NotFound` and the
buffer is unchanged. -/
theorem getFrameByPTS_first_within_not_removed (fb : FrameBuffer) (t tol : Int) :
    fb.getFrameByPTS t tol =
      match fb.queue.find? (withinTol t tol) with
      | some bf => (Result.SUCCESS, some bf.frame, fb)
      | none => (Result.ERROR_NOT_FOUND, none, fb) := by
  unfold FrameBuffer.getFrameByPTS
  rw [scanPTS_spec]
  cases h : fb.queue.find? (withinTol t tol) <;> simp

/-! ## Theorems for claim C3 — capacity bound and accounting -/

/-- Every operation leaves the configured capacity unchanged. -/
theorem FrameBuffer.step_capacity (fb : FrameBuffer) (op : FBOp) :
    (fb.step op).capacity = fb.capacity := by
  cases op with
  | push f d now =>
      simp only [FrameBuffer.step, FrameBuffer.push]
      split
      · rfl
      · split <;> rfl
  | pop =>
      simp only [FrameBuffer.step, FrameBuffer.pop]
      cases fb.queue with
      | nil => cases fb.last_frame <;> rfl
      | cons b rest => rfl
  | getByPTS t tol =>
      simp only [FrameBuffer.step, FrameBuffer.getFrameByPTS]
      rw [scanPTS_spec]
      cases fb.queue.find? (withinTol t tol) <;> rfl
  | clear => rfl

/-- With capacity ≥ 1, every operation preserves `size ≤ capacity`. -/
theorem FrameBuffer.step_size_le (fb : FrameBuffer) (op : FBOp)
    (hc : 1 ≤ fb.capacity) (h : fb.queue.length ≤ fb.capacity) :
    (fb.step op).queue.length ≤ fb.capacity := by
  cases op with
  | push f d now =>
      simp only [FrameBuffer.step, FrameBuffer.push]
      split
      · exact h
      · split
        · rename_i hfull
          have hne : fb.queue ≠ [] := hfull.2
          have hpos : 0 < fb.queue.length := List.length_pos.mpr hne
          simp only [List.length_append, List.length_tail, List.length_cons,
            List.length_nil]
          omega
        · rename_i hnf
          simp only [List.length_append, List.length_cons, List.length_nil]
          by_cases hq : fb.queue = []
          · rw [hq]
            simp only [List.length_nil]
            omega
          · have hlt : fb.queue.length < fb.capacity := by
              by_contra hge
              exact hnf ⟨Nat.le_of_not_lt hge, hq⟩
            omega
  | pop =>
      simp only [FrameBuffer.step, FrameBuffer.pop]
      cases hq : fb.queue with
      | nil => cases fb.last_frame <;> simp [hq]
      | cons b rest =>
          simp only
          have := congrArg List.length hq
          simp only [List.length_cons] at this
          omega
  | getByPTS t tol =>
      simp only [FrameBuffer.step, FrameBuffer.getFrameByPTS]
      rw [scanPTS_spec]
      cases fb.queue.find? (withinTol t tol) <;> simpa using h
  | clear => simp [FrameBuffer.step, FrameBuffer.clear]

/-- Every operation except `clear` preserves the accounting
`frames_pushed − frames_popped − frames_dropped = size`. -/
theorem FrameBuffer.step_balanced (fb : FrameBuffer) (op : FBOp)
    (hop : op ≠ FBOp.clear) (hb : fb.balanced) : (fb.step op).balanced := by
  cases op with
  | push f d now =>
      simp only [FrameBuffer.step, FrameBuffer.push]
      split
      · exact hb
      · unfold FrameBuffer.balanced at hb ⊢
        split
        · rename_i hfull
          have hne : fb.queue ≠ [] := hfull.2
          have hpos : 0 < fb.queue.length := List.length_pos.mpr hne
          simp only [List.length_append, List.length_tail, List.length_cons,
            List.length_nil]
          omega
        · simp only [List.length_append, List.length_cons, List.length_nil]
          omega
  | pop =>
      simp only [FrameBuffer.step, FrameBuffer.pop]
      cases hq : fb.queue with
      | nil =>
          cases fb.last_frame with
          | none => simpa using hb
          | some lf =>
              unfold FrameBuffer.balanced at hb ⊢
              simpa [hq] using hb
      | cons b rest =>
          unfold FrameBuffer.balanced at hb ⊢
          rw [hq] at hb
          simp only [List.length_cons] at hb ⊢
          omega
  | getByPTS t tol =>
      simp only [FrameBuffer.step, FrameBuffer.getFrameByPTS]
      rw [scanPTS_spec]
      cases fb.queue.find? (withinTol t tol) <;>
        simpa [FrameBuffer.balanced] using hb
  | clear => exact absurd rfl hop

/-- C3 counterexample.  With capacity 0 a `push` with `drop_oldest_on_full`
makes the queue larger than the capacity; and a `push` followed by `clear`
(capacity 3) leaves `frames_pushed − frames_popped − frames_dropped = 1`
while the queue is empty, because `clear` counts nothing as dropped. -/
theorem frameBuffer_claim_counterexample :
    ((FrameBuffer.init 0).run [FBOp.push (testFrame 0) true 0]).queue.length = 1 ∧
    ((FrameBuffer.init 0).run [FBOp.push (testFrame 0) true 0]).capacity = 0 ∧
    ¬ ((FrameBuffer.init 3).run [FBOp.push (testFrame 0) true 0, FBOp.clear]).balanced := by
  refine ⟨by decide, by decide, ?_⟩
  intro hb
  exact absurd hb (by decide)

/-- C3 amended: after every operation sequence on a buffer of capacity ≥ 1,
the queue size never exceeds the capacity; and after every sequence that
contains no `clear`, `frames_pushed − frames_popped − frames_dropped`
equals the current queue size (`clear` discards queued frames without
counting them dropped, and a capacity-0 buffer is overfilled by a
drop-oldest push). -/
theorem frameBuffer_capacity_and_accounting (cap : Nat) (hcap : 1 ≤ cap)
    (ops : List FBOp) :
    ((FrameBuffer.init cap).run ops).queue.length ≤ cap ∧
    (FBOp.clear ∉ ops → ((FrameBuffer.init cap).run ops).balanced) := by
  have key : ∀ (l : List FBOp) (fb : FrameBuffer), fb.capacity = cap →
      fb.queue.length ≤ cap →
      (fb.run l).queue.length ≤ cap ∧
      ((FBOp.clear ∉ l ∧ fb.balanced) → (fb.run l).balanced) := by
    intro l
    induction l with
    | nil =>
        intro fb _ h
        exact ⟨h, fun hh => hh.2⟩
    | cons op rest ih =>
        intro fb hcapeq h
        have hc1 : 1 ≤ fb.capacity := hcapeq ▸ hcap
        have hcap2 : (fb.step op).capacity = cap := by
          rw [FrameBuffer.step_capacity]; exact hcapeq
        have hsize : (fb.step op).queue.length ≤ cap := by
          have h0 := FrameBuffer.step_size_le fb op hc1 (by rw [hcapeq]; exact h)
          rw [hcapeq] at h0; exact h0
        have hrun : fb.run (op :: rest) = (fb.step op).run rest := rfl
        rw [hrun]
        have hmain := ih (fb.step op) hcap2 hsize
        refine ⟨hmain.1, ?_⟩
        rintro ⟨hnc, hb⟩
        have hop : op ≠ FBOp.clear := fun he => hnc (he ▸ List.mem_cons_self op rest)
        have hrest : FBOp.clear ∉ rest := fun he => hnc (List.mem_cons_of_mem op he)
        exact hmain.2 ⟨hrest, FrameBuffer.step_balanced fb op hop hb⟩
  have h0 := key ops (FrameBuffer.init cap) rfl (by simp [FrameBuffer.init])
  refine ⟨h0.1, fun hnc => h0.2 ⟨hnc, ?_⟩⟩
  simp [FrameBuffer.init, FrameBuffer.balanced]

/-- Witness for the amended C3 theorem at capacity 3 and a concrete
push/pop/push sequence. -/
theorem frameBuffer_capacity_and_accounting_witness :
    ((FrameBuffer.init 3).run
        [FBOp.push (testFrame 5) true 0, FBOp.pop,
         FBOp.push (testFrame 7) false 2]).queue.length ≤ 3 ∧
    (FBOp.clear ∉
        [FBOp.push (testFrame 5) true 0, FBOp.pop,
         FBOp.push (testFrame 7) false 2] →
      ((FrameBuffer.init 3).run
        [FBOp.push (testFrame 5) true 0, FBOp.pop,
         FBOp.push (testFrame 7) false 2]).balanced) :=
  frameBuffer_capacity_and_accounting 3 (by decide) _

/-! ## Theorems for claim C4 — pop-timeout repeat semantics -/

theorem frameWF_mono {f : VideoFrame} {n m : Nat} (h : frameWF f n) (hnm : n ≤ m) :
    frameWF f m := by
  cases hd : f.data with
  | none => simp only [frameWF, hd]
  | some b =>
      simp only [frameWF, hd] at h ⊢
      exact ⟨h.1, h.2.1, lt_of_lt_of_le h.2.2 hnm⟩

theorem copyFrameData_WF (a : Nat) (f : VideoFrame) :
    frameWF { f with data := copyFrameData a f } (a + 1) := by
  cases hd : f.data with
  | none => simp only [frameWF, copyFrameData, hd]
  | some b =>
      by_cases h : f.size > 0
      · simp only [frameWF, copyFrameData, hd, if_pos h]
        refine ⟨h, ?_, Nat.lt_succ_self a⟩
        rw [List.length_take]
        exact Nat.min_le_left _ _
      · simp only [frameWF, copyFrameData, hd, if_neg h]

theorem copyIfData_WF (a : Nat) {f : VideoFrame} {n : Nat} (hf : frameWF f n) :
    frameWF (copyIfData a f) (a + 1) := by
  cases hd : f.data with
  | none => simp only [frameWF, copyIfData, hd]
  | some b =>
      simp only [frameWF, hd] at hf
      simp only [frameWF, copyIfData, hd, if_pos hf.1]
      refine ⟨hf.1, ?_, Nat.lt_succ_self a⟩
      rw [List.length_take]
      exact Nat.min_le_left _ _

theorem copyIfData_deepEq (a : Nat) {f : VideoFrame} {n : Nat} (hf : frameWF f n) :
    frameDeepEq (copyIfData a f) f = true := by
  cases hd : f.data with
  | none => simp [frameDeepEq, copyIfData, hd]
  | some b =>
      simp only [frameWF, hd] at hf
      simp only [copyIfData, hd, if_pos hf.1]
      simp [frameDeepEq, hd, List.take_of_length_le hf.2.1]

theorem copyIfData_not_shares (a : Nat) {f g : VideoFrame} {n : Nat}
    (hf : frameWF f n) (hg : frameWF g n) (hna : n ≤ a) :
    sharesBuffer (copyIfData a f) g = false := by
  cases hdf : f.data with
  | none => cases hdg : g.data <;> simp [sharesBuffer, copyIfData, hdf, hdg]
  | some b =>
      simp only [frameWF, hdf] at hf
      cases hdg : g.data with
      | none => simp [sharesBuffer, copyIfData, hdf, hdg, if_pos hf.1]
      | some c =>
          simp only [frameWF, hdg] at hg
          simp only [sharesBuffer, copyIfData, hdf, hdg, if_pos hf.1]
          simp only [beq_eq_false_iff_ne, ne_eq]
          have : c.id < n := hg.2.2
          omega

theorem frameDeepEq_symm {a b : VideoFrame} (h : frameDeepEq a b = true) :
    frameDeepEq b a = true := by
  simp only [frameDeepEq, Bool.and_eq_true, beq_iff_eq] at h ⊢
  obtain ⟨⟨⟨⟨⟨⟨⟨e1, e2⟩, e3⟩, e4⟩, e5⟩, e6⟩, e7⟩, e8⟩ := h
  exact ⟨⟨⟨⟨⟨⟨⟨e1.symm, e2.symm⟩, e3.symm⟩, e4.symm⟩, e5.symm⟩, e6.symm⟩,
    e7.symm⟩, e8.symm⟩

theorem frameDeepEq_trans {a b c : VideoFrame} (h1 : frameDeepEq a b = true)
    (h2 : frameDeepEq b c = true) : frameDeepEq a c = true := by
  simp only [frameDeepEq, Bool.and_eq_true, beq_iff_eq] at h1 h2 ⊢
  obtain ⟨⟨⟨⟨⟨⟨⟨e1, e2⟩, e3⟩, e4⟩, e5⟩, e6⟩, e7⟩, e8⟩ := h1
  obtain ⟨⟨⟨⟨⟨⟨⟨g1, g2⟩, g3⟩, g4⟩, g5⟩, g6⟩, g7⟩, g8⟩ := h2
  exact ⟨⟨⟨⟨⟨⟨⟨e1.trans g1, e2.trans g2⟩, e3.trans g3⟩, e4.trans g4⟩,
    e5.trans g5⟩, e6.trans g6⟩, e7.trans g7⟩, e8.trans g8⟩

/-- Equation: timed-out pop with no retained frame. -/
theorem FrameBuffer.pop_nil_none (fb : FrameBuffer) (hq : fb.queue = [])
    (hl : fb.last_frame = none) : fb.pop = (Result.ERROR_TIMEOUT, none, fb) := by
  simp only [FrameBuffer.pop, hq, hl]

/-- Equation: timed-out pop repeating the retained frame. -/
theorem FrameBuffer.pop_nil_some (fb : FrameBuffer) (lf : BufferedFrame)
    (hq : fb.queue = []) (hl : fb.last_frame = some lf) :
    fb.pop = (Result.SUCCESS, some (copyIfData fb.next_alloc lf.frame),
      { fb with next_alloc := fb.next_alloc + 1,
                stats := { fb.stats with
                            frames_repeated := fb.stats.frames_repeated + 1 } }) := by
  simp only [FrameBuffer.pop, hq, hl]

/-- Equation: pop dequeues the head when the queue is non-empty. -/
theorem FrameBuffer.pop_cons (fb : FrameBuffer) (b : BufferedFrame)
    (rest : List BufferedFrame) (hq : fb.queue = b :: rest) :
    fb.pop = (Result.SUCCESS, some b.frame,
      { fb with queue := rest,
                last_frame := some { b with frame := copyIfData fb.next_alloc b.frame },
                next_alloc := fb.next_alloc + 1,
                stats := { fb.stats with
                            frames_popped := fb.stats.frames_popped + 1 } }) := by
  simp only [FrameBuffer.pop, hq]

/-- One extended step preserves the last-frame/popped-frame invariant. -/
theorem FrameBuffer.stepPopped_popInv (fb : FrameBuffer) (g : Option VideoFrame)
    (op : FBOp) (h : fb.popInv g) :
    (FrameBuffer.stepPopped (fb, g) op).1.popInv (FrameBuffer.stepPopped (fb, g) op).2 := by
  obtain ⟨hq, hl⟩ := h
  cases op with
  | push f d now =>
      simp only [FrameBuffer.stepPopped, FrameBuffer.step, FrameBuffer.push]
      split
      · exact ⟨hq, hl⟩
      · split
        · refine ⟨?_, ?_⟩
          · intro bf hbf
            rcases List.mem_append.mp hbf with hmem | hmem
            · exact frameWF_mono (hq bf (List.mem_of_mem_tail hmem)) (Nat.le_succ _)
            · rw [List.mem_singleton.mp hmem]
              exact copyFrameData_WF _ _
          · intro lf hlf
            obtain ⟨hwf, f0, hg, hde, hsh, hwf0⟩ := hl lf hlf
            exact ⟨frameWF_mono hwf (Nat.le_succ _), f0, hg, hde, hsh,
              frameWF_mono hwf0 (Nat.le_succ _)⟩
        · refine ⟨?_, ?_⟩
          · intro bf hbf
            rcases List.mem_append.mp hbf with hmem | hmem
            · exact frameWF_mono (hq bf hmem) (Nat.le_succ _)
            · rw [List.mem_singleton.mp hmem]
              exact copyFrameData_WF _ _
          · intro lf hlf
            obtain ⟨hwf, f0, hg, hde, hsh, hwf0⟩ := hl lf hlf
            exact ⟨frameWF_mono hwf (Nat.le_succ _), f0, hg, hde, hsh,
              frameWF_mono hwf0 (Nat.le_succ _)⟩
  | pop =>
      cases hfq : fb.queue with
      | nil =>
          cases hlf : fb.last_frame with
          | none =>
              simp only [FrameBuffer.stepPopped, FrameBuffer.pop_nil_none fb hfq hlf]
              exact ⟨hq, hl⟩
          | some lf =>
              obtain ⟨hwf, f0, hg, hde, hsh, hwf0⟩ := hl lf (by rw [hlf]; rfl)
              simp only [FrameBuffer.stepPopped, FrameBuffer.pop_nil_some fb lf hfq hlf]
              refine ⟨?_, ?_⟩
              · intro bf hbf
                exact frameWF_mono (hq bf hbf) (Nat.le_succ _)
              · intro lf2 hlf2
                simp only [Option.mem_def, hlf, Option.some.injEq] at hlf2
                subst hlf2
                exact ⟨frameWF_mono hwf (Nat.le_succ _),
                  copyIfData fb.next_alloc lf.frame, rfl,
                  frameDeepEq_symm (copyIfData_deepEq _ hwf),
                  by
                    have hns := copyIfData_not_shares fb.next_alloc hwf hwf (le_refl _)
                    cases hd : lf.frame.data with
                    | none => simp [sharesBuffer, copyIfData, hd]
                    | some b =>
                        simp only [frameWF, hd] at hwf
                        simp only [sharesBuffer, copyIfData, hd, if_pos hwf.1]
                        simp only [beq_eq_false_iff_ne, ne_eq]
                        have : b.id < fb.next_alloc := hwf.2.2
                        omega,
                  copyIfData_WF _ hwf⟩
      | cons b rest =>
          have hbWF : frameWF b.frame fb.next_alloc :=
            hq b (by rw [hfq]; exact List.mem_cons_self _ _)
          simp only [FrameBuffer.stepPopped, FrameBuffer.pop_cons fb b rest hfq]
          refine ⟨?_, ?_⟩
          · intro bf hbf
            exact frameWF_mono
              (hq bf (by rw [hfq]; exact List.mem_cons_of_mem _ hbf)) (Nat.le_succ _)
          · intro lf2 hlf2
            simp only [Option.mem_def, Option.some.injEq] at hlf2
            subst hlf2
            exact ⟨copyIfData_WF _ hbWF, b.frame, rfl, copyIfData_deepEq _ hbWF,
              copyIfData_not_shares _ hbWF hbWF (le_refl _),
              frameWF_mono hbWF (Nat.le_succ _)⟩
  | getByPTS t tol =>
      simp only [FrameBuffer.stepPopped, FrameBuffer.step, FrameBuffer.getFrameByPTS]
      rw [scanPTS_spec]
      cases fb.queue.find? (withinTol t tol) <;> exact ⟨hq, hl⟩
  | clear =>
      simp only [FrameBuffer.stepPopped, FrameBuffer.step, FrameBuffer.clear]
      refine ⟨fun bf hbf => absurd hbf (List.not_mem_nil bf), ?_⟩
      intro lf hlf
      cases hlast : fb.last_frame with
      | none => simp only [hlast] at hlf; cases hlf
      | some lf0 =>
          simp only [hlast] at hlf
          by_cases hd : lf0.frame.data.isSome
          · simp only [if_pos hd] at hlf; cases hlf
          · simp only [if_neg hd, Option.mem_def, Option.some.injEq] at hlf
            subst hlf
            exact hl lf0 (by rw [hlast]; rfl)

/-- The invariant holds after any run from a fresh buffer. -/
theorem FrameBuffer.runPopped_popInv (cap : Nat) (ops : List FBOp) :
    (FrameBuffer.runPopped (FrameBuffer.init cap, none) ops).1.popInv
      (FrameBuffer.runPopped (FrameBuffer.init cap, none) ops).2 := by
  have key : ∀ (l : List FBOp) (s : FrameBuffer × Option VideoFrame),
      s.1.popInv s.2 →
      (FrameBuffer.runPopped s l).1.popInv (FrameBuffer.runPopped s l).2 := by
    intro l
    induction l with
    | nil => intro s h; exact h
    | cons op rest ih =>
        intro s h
        exact ih _ (FrameBuffer.stepPopped_popInv s.1 s.2 op h)
  refine key ops _ ⟨?_, ?_⟩
  · intro bf hbf; cases hbf
  · intro lf hlf; cases hlf

/-- C4 confirmed: when an extended run leaves the queue empty, a `pop`
(whose timed wait therefore expires) behaves as claimed: with a retained
last frame it returns `Ok` with a frame deep-equal to — yet in a buffer
distinct from — the most recently successfully popped frame, incrementing
`frames_repeated` by exactly 1 and changing no other counter; with no
retained frame it returns `Timeout` and the state is unchanged. -/
theorem frameBuffer_pop_timeout_repeat (cap : Nat) (ops : List FBOp)
    (fb : FrameBuffer) (g : Option VideoFrame)
    (hrun : FrameBuffer.runPopped (FrameBuffer.init cap, none) ops = (fb, g))
    (hq : fb.queue = []) :
    (∀ lf ∈ fb.last_frame, ∃ f, g = some f ∧
       fb.pop.1 = Result.SUCCESS ∧
       (∃ out, fb.pop.2.1 = some out ∧ frameDeepEq out f = true ∧
               sharesBuffer out f = false) ∧
       fb.pop.2.2.stats =
         { fb.stats with frames_repeated := fb.stats.frames_repeated + 1 } ∧
       fb.pop.2.2.queue = fb.queue ∧ fb.pop.2.2.last_frame = fb.last_frame) ∧
    (fb.last_frame = none → fb.pop = (Result.ERROR_TIMEOUT, none, fb)) := by
  have hinv : fb.popInv g := by
    have h0 := FrameBuffer.runPopped_popInv cap ops
    rw [hrun] at h0
    exact h0
  obtain ⟨hqinv, hlinv⟩ := hinv
  constructor
  · intro lf hlf
    cases hlast : fb.last_frame with
    | none => rw [hlast] at hlf; cases hlf
    | some lf0 =>
        rw [hlast] at hlf
        simp only [Option.mem_def, Option.some.injEq] at hlf
        subst hlf
        obtain ⟨hwf, f0, hg, hde, hsh, hwf0⟩ := hlinv lf0 (by rw [hlast]; rfl)
        refine ⟨f0, hg, ?_⟩
        rw [FrameBuffer.pop_nil_some fb lf0 hq hlast]
        refine ⟨rfl, ⟨copyIfData fb.next_alloc lf0.frame, rfl, ?_, ?_⟩, rfl, hq.symm ▸ rfl, hlast.symm ▸ rfl⟩
        · exact frameDeepEq_trans (copyIfData_deepEq _ hwf) hde
        · exact copyIfData_not_shares _ hwf hwf0 (le_refl _)
  · intro hlast
    exact FrameBuffer.pop_nil_none fb hq hlast

/-- Witness for C4 after the concrete run push–pop, which empties the
queue and retains a last frame. -/
theorem frameBuffer_pop_timeout_repeat_witness :
    (∀ lf ∈ (FrameBuffer.runPopped (FrameBuffer.init 2, none)
        [FBOp.push (testFrame 5) true 0, FBOp.pop]).1.last_frame,
      ∃ f, (FrameBuffer.runPopped (FrameBuffer.init 2, none)
        [FBOp.push (testFrame 5) true 0, FBOp.pop]).2 = some f ∧
       (FrameBuffer.runPopped (FrameBuffer.init 2, none)
        [FBOp.push (testFrame 5) true 0, FBOp.pop]).1.pop.1 = Result.SUCCESS ∧
       (∃ out, (FrameBuffer.runPopped (FrameBuffer.init 2, none)
        [FBOp.push (testFrame 5) true 0, FBOp.pop]).1.pop.2.1 = some out ∧
          frameDeepEq out f = true ∧ sharesBuffer out f = false) ∧
       (FrameBuffer.runPopped (FrameBuffer.init 2, none)
        [FBOp.push (testFrame 5) true 0, FBOp.pop]).1.pop.2.2.stats =
         { (FrameBuffer.runPopped (FrameBuffer.init 2, none)
             [FBOp.push (testFrame 5) true 0, FBOp.pop]).1.stats with
            frames_repeated := (FrameBuffer.runPopped (FrameBuffer.init 2, none)
             [FBOp.push (testFrame 5) true 0, FBOp.pop]).1.stats.frames_repeated + 1 } ∧
       (FrameBuffer.runPopped (FrameBuffer.init 2, none)
        [FBOp.push (testFrame 5) true 0, FBOp.pop]).1.pop.2.2.queue =
         (FrameBuffer.runPopped (FrameBuffer.init 2, none)
           [FBOp.push (testFrame 5) true 0, FBOp.pop]).1.queue ∧
       (FrameBuffer.runPopped (FrameBuffer.init 2, none)
        [FBOp.push (testFrame 5) true 0, FBOp.pop]).1.pop.2.2.last_frame =
         (FrameBuffer.runPopped (FrameBuffer.init 2, none)
           [FBOp.push (testFrame 5) true 0, FBOp.pop]).1.last_frame) ∧
    ((FrameBuffer.runPopped (FrameBuffer.init 2, none)
        [FBOp.push (testFrame 5) true 0, FBOp.pop]).1.last_frame = none →
      (FrameBuffer.runPopped (FrameBuffer.init 2, none)
        [FBOp.push (testFrame 5) true 0, FBOp.pop]).1.pop =
        (Result.ERROR_TIMEOUT, none,
          (FrameBuffer.runPopped (FrameBuffer.init 2, none)
            [FBOp.push (testFrame 5) true 0, FBOp.pop]).1)) :=
  frameBuffer_pop_timeout_repeat 2 [FBOp.push (testFrame 5) true 0, FBOp.pop]
    _ _ rfl (by decide)

/-! ## Theorems for claim C8 — EISCP round trip -/

/-- `buildEISCPPacket` as an explicit byte chain. -/
theorem buildEISCPPacket_eq (cmd param : List Nat) :
    buildEISCPPacket cmd param =
      73 :: 83 :: 67 :: 80 :: 0 :: 0 :: 0 :: 16 ::
      ((4 + cmd.length + param.length) % 2 ^ 32 / 2 ^ 24 % 256) ::
      ((4 + cmd.length + param.length) % 2 ^ 32 / 2 ^ 16 % 256) ::
      ((4 + cmd.length + param.length) % 2 ^ 32 / 2 ^ 8 % 256) ::
      ((4 + cmd.length + param.length) % 2 ^ 32 % 256) ::
      1 :: 0 :: 0 :: 0 :: 33 :: 49 :: (cmd ++ (param ++ [13, 10])) := by
  simp only [buildEISCPPacket]
  have hlen : ([33, 49] ++ cmd ++ param ++ [13, 10] : List Nat).length =
      4 + cmd.length + param.length := by
    simp [List.length_append]
    omega
  rw [hlen]
  simp [List.cons_append, List.nil_append, List.append_assoc]

/-- What `parseEISCPPacket` does to any built packet, in terms of the
(possibly truncated) 32-bit data size. -/
theorem parseEISCP_build (cmd param : List Nat) :
    parseEISCPPacket (buildEISCPPacket cmd param) =
      (if 16 + (4 + cmd.length + param.length) < 21 then none
       else
         if ((cmd ++ (param ++ [13, 10])).take
               ((4 + cmd.length + param.length) % 2 ^ 32 - 4)).length < 3 then none
         else some
           (((cmd ++ (param ++ [13, 10])).take
               ((4 + cmd.length + param.length) % 2 ^ 32 - 4)).take 3,
            ((cmd ++ (param ++ [13, 10])).take
               ((4 + cmd.length + param.length) % 2 ^ 32 - 4)).drop 3)) := by
  have hbuild := buildEISCPPacket_eq cmd param
  have hdsle : (4 + cmd.length + param.length) % 2 ^ 32 ≤
      4 + cmd.length + param.length := Nat.mod_le _ _
  have hdslt : (4 + cmd.length + param.length) % 2 ^ 32 < 2 ^ 32 :=
    Nat.mod_lt _ (by norm_num)
  have hlenp : (buildEISCPPacket cmd param).length =
      16 + (4 + cmd.length + param.length) := by
    rw [hbuild]
    simp [List.length_append]
    omega
  have h0 : (buildEISCPPacket cmd param).getD 0 0 = 73 := by rw [hbuild]; rfl
  have h1 : (buildEISCPPacket cmd param).getD 1 0 = 83 := by rw [hbuild]; rfl
  have h2 : (buildEISCPPacket cmd param).getD 2 0 = 67 := by rw [hbuild]; rfl
  have h3 : (buildEISCPPacket cmd param).getD 3 0 = 80 := by rw [hbuild]; rfl
  have h8 : (buildEISCPPacket cmd param).getD 8 0 =
      (4 + cmd.length + param.length) % 2 ^ 32 / 2 ^ 24 % 256 := by rw [hbuild]; rfl
  have h9 : (buildEISCPPacket cmd param).getD 9 0 =
      (4 + cmd.length + param.length) % 2 ^ 32 / 2 ^ 16 % 256 := by rw [hbuild]; rfl
  have h10 : (buildEISCPPacket cmd param).getD 10 0 =
      (4 + cmd.length + param.length) % 2 ^ 32 / 2 ^ 8 % 256 := by rw [hbuild]; rfl
  have h11 : (buildEISCPPacket cmd param).getD 11 0 =
      (4 + cmd.length + param.length) % 2 ^ 32 % 256 := by rw [hbuild]; rfl
  have hdrop : (buildEISCPPacket cmd param).drop 18 = cmd ++ (param ++ [13, 10]) := by
    rw [hbuild]; rfl
  have hcomb : (4 + cmd.length + param.length) % 2 ^ 32 / 2 ^ 24 % 256 * 2 ^ 24 +
      (4 + cmd.length + param.length) % 2 ^ 32 / 2 ^ 16 % 256 * 2 ^ 16 +
      (4 + cmd.length + param.length) % 2 ^ 32 / 2 ^ 8 % 256 * 2 ^ 8 +
      (4 + cmd.length + param.length) % 2 ^ 32 % 256 =
      (4 + cmd.length + param.length) % 2 ^ 32 := by omega
  simp only [parseEISCPPacket, h0, h1, h2, h3, h8, h9, h10, h11, hdrop, hlenp, hcomb]
  by_cases hsmall : 16 + (4 + cmd.length + param.length) < 21
  · rw [if_pos hsmall, if_pos hsmall]
  · rw [if_neg hsmall, if_neg hsmall]
    rw [if_neg (by simp)]
    rw [if_neg (by omega)]
    have htake : 16 + (4 + cmd.length + param.length) % 2 ^ 32 - 2 - 18 =
        (4 + cmd.length + param.length) % 2 ^ 32 - 4 := by omega
    rw [htake]

/-- The oversized parameter used by the C8 counterexample: the EISCP data
section then has length `2^32 + 3`, which the `uint32_t` size field
truncates to 3. -/
def hugeParam : List Nat := List.replicate (2 ^ 32 - 4) 0

/-- C8 counterexample.  For `cmd = "MVL"` (length 3) and a parameter of
`2^32 − 4` bytes, `parse(build(cmd, param))` fails (`data_size` wraps to 3,
so the parser extracts an empty data slice), refuting the claim for this
`(cmd, param)` pair. -/
theorem eiscp_roundtrip_claim_counterexample :
    ([77, 86, 76] : List Nat).length = 3 ∧
    parseEISCPPacket (buildEISCPPacket [77, 86, 76] hugeParam) = none := by
  have hlen : hugeParam.length = 2 ^ 32 - 4 := by
    unfold hugeParam
    exact List.length_replicate _ _
  refine ⟨rfl, ?_⟩
  rw [parseEISCP_build]
  rw [if_neg (by simp only [hlen]; norm_num)]
  rw [if_pos (by simp only [hlen]; norm_num)]

/-- C8 amended: for every command of length 3 and every parameter such
that the data section fits the 32-bit size field
(`4 + cmd.length + param.length < 2^32`, i.e. parameters shorter than
`2^32 − 7` bytes), `parse(build(cmd, param))` succeeds and returns exactly
`(cmd, param)`.  (For longer parameters the `uint32_t data_size` wraps and
the round trip fails.) -/
theorem eiscp_roundtrip (cmd param : List Nat) (hc : cmd.length = 3)
    (hfit : 4 + cmd.length + param.length < 2 ^ 32) :
    parseEISCPPacket (buildEISCPPacket cmd param) = some (cmd, param) := by
  rw [parseEISCP_build]
  rw [if_neg (by omega)]
  rw [Nat.mod_eq_of_lt hfit]
  have htake : (cmd ++ (param ++ [13, 10])).take (4 + cmd.length + param.length - 4) =
      cmd ++ param := by
    have h4 : 4 + cmd.length + param.length - 4 = (cmd ++ param).length := by
      simp [List.length_append]
      omega
    rw [h4, ← List.append_assoc]
    exact List.take_left _ _
  rw [htake]
  rw [if_neg (by simp [List.length_append]; omega)]
  have ht3 : (cmd ++ param).take 3 = cmd := by
    rw [← hc]
    exact List.take_left _ _
  have hd3 : (cmd ++ param).drop 3 = param := by
    rw [← hc]
    exact List.drop_left _ _
  rw [ht3, hd3]

/-- Witness for the amended C8 round trip at `("MVL", "UP")`. -/
theorem eiscp_roundtrip_witness :
    parseEISCPPacket (buildEISCPPacket [77, 86, 76] [85, 80]) =
      some ([77, 86, 76], [85, 80]) :=
  eiscp_roundtrip [77, 86, 76] [85, 80] (by decide) (by decide)

/-! ## Theorems for claim C1 — FPS-conversion accumulator -/

/-- Equation: a mid-stream `scheduleFrame` with differing rates drops the
frame when the accumulator update reaches 1. -/
theorem scheduleFrame_drop (s : FrameScheduler) (hinit : s.initialized = true)
    (hff : s.first_frame = false) (hne : s.source_frame_rate ≠ s.display_refresh_rate)
    (hge : 1 ≤ s.frame_accumulator + s.source_frame_rate / s.display_refresh_rate) :
    s.scheduleFrame = (Result.SUCCESS, false,
      { s with
          frame_accumulator :=
            s.frame_accumulator + s.source_frame_rate / s.display_refresh_rate - 1,
          frames_dropped := s.frames_dropped + 1,
          frame_number := s.frame_number + 1 }) := by
  simp [FrameScheduler.scheduleFrame, FrameScheduler.shouldDropFrame, hinit, hff, hne, hge]

/-- Equation: a mid-stream `scheduleFrame` with differing rates presents
the frame when the accumulator update stays below 1. -/
theorem scheduleFrame_present (s : FrameScheduler) (hinit : s.initialized = true)
    (hff : s.first_frame = false) (hne : s.source_frame_rate ≠ s.display_refresh_rate)
    (hlt : ¬ 1 ≤ s.frame_accumulator + s.source_frame_rate / s.display_refresh_rate) :
    s.scheduleFrame = (Result.SUCCESS, true,
      { s with
          frame_accumulator :=
            s.frame_accumulator + s.source_frame_rate / s.display_refresh_rate,
          frames_scheduled := s.frames_scheduled + 1,
          frame_number := s.frame_number + 1 }) := by
  simp [FrameScheduler.scheduleFrame, FrameScheduler.shouldDropFrame, hinit, hff, hne, hlt]

/-- When `source_fps / display_hz ≥ 1` the accumulator gains ≥ 1 every
frame, so every mid-stream frame is dropped. -/
theorem presentedCount_zero_of_ratio_ge_one (N : Nat) : ∀ (s : FrameScheduler),
    s.initialized = true → s.first_frame = false →
    s.source_frame_rate ≠ s.display_refresh_rate →
    0 ≤ s.frame_accumulator →
    1 ≤ s.source_frame_rate / s.display_refresh_rate →
    s.presentedCount N = 0 := by
  induction N with
  | zero => intro s _ _ _ _ _; simp [FrameScheduler.presentedCount]
  | succ n ih =>
      intro s hinit hff hne hacc hr
      have hge : 1 ≤ s.frame_accumulator + s.source_frame_rate / s.display_refresh_rate := by
        linarith
      rw [FrameScheduler.presentedCount, scheduleFrame_drop s hinit hff hne hge]
      simp only [Bool.false_eq_true, if_false, Nat.zero_add]
      exact ih _ hinit hff hne
        (show (0 : ℚ) ≤ s.frame_accumulator +
            s.source_frame_rate / s.display_refresh_rate - 1 from by linarith) hr

/-- Exact presented count over a window of `N` mid-stream frames when
`r = source_fps / display_hz < 1`: `N − ⌊acc + N·r⌋`. -/
theorem presentedCount_eq_floor (N : Nat) : ∀ (s : FrameScheduler),
    s.initialized = true → s.first_frame = false →
    s.source_frame_rate ≠ s.display_refresh_rate →
    0 ≤ s.frame_accumulator → s.frame_accumulator < 1 →
    0 ≤ s.source_frame_rate / s.display_refresh_rate →
    s.source_frame_rate / s.display_refresh_rate < 1 →
    (s.presentedCount N : ℤ) =
      N - ⌊s.frame_accumulator + N * (s.source_frame_rate / s.display_refresh_rate)⌋ := by
  induction N with
  | zero =>
      intro s _ _ _ h0 h1 _ _
      have hz : ⌊s.frame_accumulator⌋ = 0 := by
        rw [Int.floor_eq_zero_iff]
        exact Set.mem_Ico.mpr ⟨h0, h1⟩
      simp [FrameScheduler.presentedCount, hz]
  | succ n ih =>
      intro s hinit hff hne h0 h1 hr0 hr1
      by_cases hge : 1 ≤ s.frame_accumulator + s.source_frame_rate / s.display_refresh_rate
      · rw [FrameScheduler.presentedCount, scheduleFrame_drop s hinit hff hne hge]
        simp only [Bool.false_eq_true, if_false, Nat.zero_add]
        have hrec := ih
          { s with
              frame_accumulator :=
                s.frame_accumulator + s.source_frame_rate / s.display_refresh_rate - 1,
              frames_dropped := s.frames_dropped + 1,
              frame_number := s.frame_number + 1 }
          hinit hff hne
          (show (0 : ℚ) ≤ s.frame_accumulator +
              s.source_frame_rate / s.display_refresh_rate - 1 from by linarith)
          (show s.frame_accumulator +
              s.source_frame_rate / s.display_refresh_rate - 1 < 1 from by linarith)
          hr0 hr1
        simp only at hrec
        rw [hrec]
        have harith : s.frame_accumulator + s.source_frame_rate / s.display_refresh_rate
            - 1 + (n : ℚ) * (s.source_frame_rate / s.display_refresh_rate) =
            s.frame_accumulator +
              ((n : ℚ) + 1) * (s.source_frame_rate / s.display_refresh_rate) - 1 := by
          ring
        rw [harith]
        have hfl : ⌊s.frame_accumulator +
            ((n : ℚ) + 1) * (s.source_frame_rate / s.display_refresh_rate) - 1⌋ =
            ⌊s.frame_accumulator +
              ((n : ℚ) + 1) * (s.source_frame_rate / s.display_refresh_rate)⌋ - 1 := by
          exact_mod_cast Int.floor_sub_int (s.frame_accumulator +
            ((n : ℚ) + 1) * (s.source_frame_rate / s.display_refresh_rate)) 1
        rw [hfl]
        push_cast
        ring
      · rw [FrameScheduler.presentedCount, scheduleFrame_present s hinit hff hne hge]
        simp only [if_pos rfl]
        have hrec := ih
          { s with
              frame_accumulator :=
                s.frame_accumulator + s.source_frame_rate / s.display_refresh_rate,
              frames_scheduled := s.frames_scheduled + 1,
              frame_number := s.frame_number + 1 }
          hinit hff hne
          (show (0 : ℚ) ≤ s.frame_accumulator +
              s.source_frame_rate / s.display_refresh_rate from by linarith)
          (show s.frame_accumulator +
              s.source_frame_rate / s.display_refresh_rate < 1 from by linarith)
          hr0 hr1
        simp only at hrec
        have harith : s.frame_accumulator + s.source_frame_rate / s.display_refresh_rate
            + (n : ℚ) * (s.source_frame_rate / s.display_refresh_rate) =
            s.frame_accumulator +
              ((n : ℚ) + 1) * (s.source_frame_rate / s.display_refresh_rate) := by
          ring
        rw [harith] at hrec
        push_cast
        rw [hrec]
        ring

/-- C1 counterexample.  Initialize at 60 Hz, set the source rate to 24 fps
(rates fixed and differing) and feed a window of N = 5 frames: the
scheduler presents 4 of them, while the claim predicts
`round(5 · 60 / 24) ± 1 = 13 ± 1`.  (The accumulator adds
`source/display`, so it drops — not presents — roughly `N·24/60` frames;
the claimed count even exceeds the window length.) -/
theorem scheduler_window_claim_counterexample :
    schedC1.source_frame_rate = 24 ∧ schedC1.display_refresh_rate = 60 ∧
    schedC1.presentedCount 5 = 4 ∧
    round ((5 : ℚ) * (schedC1.display_refresh_rate / schedC1.source_frame_rate)) = 13 ∧
    ¬ (|(schedC1.presentedCount 5 : ℤ) -
        round ((5 : ℚ) * (schedC1.display_refresh_rate / schedC1.source_frame_rate))| ≤ 1) := by
  have h1 : schedC1.source_frame_rate = 24 := by
    norm_num [schedC1, FrameScheduler.setup, FrameScheduler.setSourceFrameRate]
  have h2 : schedC1.display_refresh_rate = 60 := by
    norm_num [schedC1, FrameScheduler.setup, FrameScheduler.setSourceFrameRate]
  have h3 : schedC1.presentedCount 5 = 4 := by
    norm_num [schedC1, FrameScheduler.setup, FrameScheduler.setSourceFrameRate,
      FrameScheduler.presentedCount, FrameScheduler.scheduleFrame,
      FrameScheduler.shouldDropFrame]
  have h4 : round ((5 : ℚ) * (60 / 24)) = 13 := by
    rw [round_eq]
    norm_num
  refine ⟨h1, h2, h3, ?_, ?_⟩
  · rw [h1, h2]
    exact h4
  · rw [h1, h2, h3, h4]
    decide

/-- C1 amended: over any window of `N` consecutive `scheduleFrame` calls
past the baseline first frame (scheduler initialized, rates fixed,
positive and differing, accumulator in `[0,1)` at the window start — as it
is after `initialize`/`setSourceFrameRate` and stays whenever
`source < display`): if `source_fps ≥ display_hz` every frame in the
window is dropped (0 presented); if `source_fps < display_hz` the number
presented is exactly `N − ⌊acc + N·source_fps/display_hz⌋`, which is
within ±1 of `round(N · (1 − source_fps/display_hz))`.  (The code's
accumulator implements "drop a `source/display` fraction of frames", not
the claimed `round(N·display_hz/source_fps) ± 1`.) -/
theorem scheduler_fps_conversion (s : FrameScheduler) (N : Nat)
    (hinit : s.initialized = true) (hff : s.first_frame = false)
    (hsrc : 0 < s.source_frame_rate) (hdisp : 0 < s.display_refresh_rate)
    (hne : s.source_frame_rate ≠ s.display_refresh_rate)
    (hacc0 : 0 ≤ s.frame_accumulator) (hacc1 : s.frame_accumulator < 1) :
    (1 ≤ s.source_frame_rate / s.display_refresh_rate → s.presentedCount N = 0) ∧
    (s.source_frame_rate / s.display_refresh_rate < 1 →
      (s.presentedCount N : ℤ) = N - ⌊s.frame_accumulator +
          N * (s.source_frame_rate / s.display_refresh_rate)⌋ ∧
      |(s.presentedCount N : ℚ) -
        ((round ((N : ℚ) * (1 - s.source_frame_rate / s.display_refresh_rate)) : ℤ) : ℚ)| ≤ 1) := by
  have hr0 : 0 ≤ s.source_frame_rate / s.display_refresh_rate :=
    le_of_lt (div_pos hsrc hdisp)
  constructor
  · intro h
    exact presentedCount_zero_of_ratio_ge_one N s hinit hff hne hacc0 h
  · intro hlt
    have hfe := presentedCount_eq_floor N s hinit hff hne hacc0 hacc1 hr0 hlt
    refine ⟨hfe, ?_⟩
    set r := s.source_frame_rate / s.display_refresh_rate with hrdef
    set a := s.frame_accumulator with hadef
    set F := ⌊a + (N : ℚ) * r⌋ with hFdef
    set R := round ((N : ℚ) * (1 - r)) with hRdef
    have hcast : (s.presentedCount N : ℚ) = (N : ℚ) - (F : ℚ) := by
      exact_mod_cast congrArg (fun z : ℤ => (z : ℚ)) hfe
    rw [hcast]
    have hFle : (F : ℚ) ≤ a + (N : ℚ) * r := Int.floor_le _
    have hFgt : a + (N : ℚ) * r < F + 1 := Int.lt_floor_add_one _
    have hround : |((N : ℚ) * (1 - r)) - R| ≤ 1 / 2 := abs_sub_round _
    have hdiff1 : |((N : ℚ) - F) - (N : ℚ) * (1 - r)| < 1 := by
      rw [abs_lt]
      constructor <;> nlinarith
    have h32 : |((N : ℚ) - F) - R| < 3 / 2 := by
      have hsplit : ((N : ℚ) - F) - R =
          (((N : ℚ) - F) - (N : ℚ) * (1 - r)) + ((N : ℚ) * (1 - r) - R) := by ring
      rw [hsplit]
      calc |(((N : ℚ) - F) - (N : ℚ) * (1 - r)) + ((N : ℚ) * (1 - r) - R)| ≤
          |((N : ℚ) - F) - (N : ℚ) * (1 - r)| + |(N : ℚ) * (1 - r) - R| := abs_add _ _
        _ < 3 / 2 := by linarith
    have habs_eq : |((N : ℚ) - F) - R| = (|(N - F - R : ℤ)| : ℚ) := by
      push_cast
      ring_nf
    have hzabs : |(N - F - R : ℤ)| ≤ 1 := by
      have h3 : (|(N - F - R : ℤ)| : ℚ) < 3 / 2 := by
        rw [← habs_eq]
        exact h32
      by_contra hcon
      push_neg at hcon
      have h4 : (2 : ℤ) ≤ |N - F - R| := by omega
      have h5 : (2 : ℚ) ≤ (|(N - F - R : ℤ)| : ℚ) := by exact_mod_cast h4
      linarith
    rw [habs_eq]
    exact_mod_cast hzabs

/-- Witness for the amended C1 at 24 fps source, 60 Hz display,
accumulator 0, window of 10 frames. -/
theorem scheduler_fps_conversion_witness :
    ((1 ≤ schedW.source_frame_rate / schedW.display_refresh_rate →
        schedW.presentedCount 10 = 0) ∧
     (schedW.source_frame_rate / schedW.display_refresh_rate < 1 →
       (schedW.presentedCount 10 : ℤ) = 10 - ⌊schedW.frame_accumulator +
           10 * (schedW.source_frame_rate / schedW.display_refresh_rate)⌋ ∧
       |(schedW.presentedCount 10 : ℚ) -
         ((round ((10 : ℚ) *
            (1 - schedW.source_frame_rate / schedW.display_refresh_rate)) : ℤ) : ℚ)| ≤ 1)) :=
  scheduler_fps_conversion schedW 10 rfl rfl (by decide) (by decide) (by decide)
    (by decide) (by decide)

/-! ## Theorems for claim C7 — EDID checksum handling -/

set_option maxRecDepth 16384 in
/-- C7 counterexample.  `edidBadExt` is 256 bytes: a valid base block that
declares one extension block, whose extension block fails the
zero-sum-mod-256 check; yet `parseEDIDData` returns `SUCCESS` — the
extension block is skipped (`continue`), not rejected. -/
theorem edid_claim_counterexample :
    edidBadExt.length = 256 ∧
    edidBadExt.getD 126 0 = 1 ∧
    verifyChecksum ((edidBadExt.drop 128).take 128) 128 = false ∧
    (parseEDIDData edidBadExt).1 = Result.SUCCESS := by
  decide

/-- C7 amended: any input of at least 128 bytes with a valid EDID header
is rejected (`ERROR_INVALID_DATA`) exactly when its 128-byte base block
fails the zero-sum-mod-256 checksum; when the base checksum passes,
parsing succeeds regardless of the extension blocks — an extension block
failing its own checksum is skipped, not rejected. -/
theorem edid_checksum_behavior (data : List Nat) (hlen : 128 ≤ data.length)
    (hhdr : data.take 8 = [0x00, 0xFF, 0xFF, 0xFF, 0xFF, 0xFF, 0xFF, 0x00]) :
    (verifyChecksum data 128 = false →
       (parseEDIDData data).1 = Result.ERROR_INVALID_DATA) ∧
    (verifyChecksum data 128 = true → (parseEDIDData data).1 = Result.SUCCESS) := by
  constructor
  · intro hck
    unfold parseEDIDData
    rw [if_neg (by omega), if_neg (by simp [hhdr]), if_pos (by simp [hck])]
  · intro hck
    unfold parseEDIDData
    rw [if_neg (by omega), if_neg (by simp [hhdr]), if_neg (by simp [hck])]

set_option maxRecDepth 16384 in
/-- Witness for the amended C7 at a concrete valid 128-byte EDID. -/
theorem edid_checksum_behavior_witness :
    (verifyChecksum edidGood 128 = false →
       (parseEDIDData edidGood).1 = Result.ERROR_INVALID_DATA) ∧
    (verifyChecksum edidGood 128 = true →
       (parseEDIDData edidGood).1 = Result.SUCCESS) :=
  edid_checksum_behavior edidGood (by decide) (by decide)

/-! ## Theorems for claim C10 — frame-rate detection is never updated -/

/-- No capture operation writes `detected_frame_rate` or
`frame_rate_stable` (mirroring the undefined, uncalled
`detectFrameRate`). -/
theorem DeckLinkCapture.step_detected (c : DeckLinkCapture) (op : CapOp) :
    (c.step op).detected_frame_rate = c.detected_frame_rate ∧
    (c.step op).frame_rate_stable = c.frame_rate_stable := by
  cases op with
  | setup ok => simp only [DeckLinkCapture.step]; split <;> exact ⟨rfl, rfl⟩
  | start ok =>
      simp only [DeckLinkCapture.step]
      split
      · exact ⟨rfl, rfl⟩
      · split
        · exact ⟨rfl, rfl⟩
        · split <;> exact ⟨rfl, rfl⟩
  | stop => simp only [DeckLinkCapture.step]; split <;> exact ⟨rfl, rfl⟩
  | getFrame =>
      simp only [DeckLinkCapture.step]
      cases c.frame_queue <;> exact ⟨rfl, rfl⟩
  | onFrameReceived q =>
      simp only [DeckLinkCapture.step]
      split <;> exact ⟨rfl, rfl⟩

/-- `update` against a capture whose rate is not stable makes no
`setMode` call, returns `SUCCESS`, leaves `mode_switches` unchanged and
at most refreshes `stats.current_source_fps` (the not-stable early
return; the disabled/unwired guard returns even earlier). -/
theorem update_not_stable (m : FrameRateMatcher) (c : DeckLinkCapture)
    (mode : DisplayMode) (bestMatch : ℚ → DisplayMode)
    (setModeRes : DisplayMode → Result) (h : c.frame_rate_stable = false) :
    (m.update c mode bestMatch setModeRes).2.2 = 0 ∧
    (m.update c mode bestMatch setModeRes).1 = Result.SUCCESS ∧
    (m.update c mode bestMatch setModeRes).2.1.stats.mode_switches =
      m.stats.mode_switches ∧
    ((m.update c mode bestMatch setModeRes).2.1 = m ∨
     (m.update c mode bestMatch setModeRes).2.1 =
       { m with stats := { m.stats with
                            current_source_fps := getDetectedFrameRate c } }) := by
  unfold FrameRateMatcher.update
  split
  · exact ⟨rfl, rfl, rfl, Or.inl rfl⟩
  · simp only [isFrameRateStable, h, if_pos rfl]
    exact ⟨rfl, rfl, rfl, Or.inr rfl⟩

/-- One system event preserves "detection dead, no switches". -/
theorem AVSystem.step_invariant (bestMatch : ℚ → DisplayMode)
    (setModeRes : DisplayMode → Result) (s : AVSystem) (op : SysOp)
    (h1 : s.capture.detected_frame_rate = 0)
    (h2 : s.capture.frame_rate_stable = false)
    (h3 : s.matcher.stats.mode_switches = 0) (h4 : s.set_mode_calls = 0) :
    (AVSystem.step bestMatch setModeRes s op).capture.detected_frame_rate = 0 ∧
    (AVSystem.step bestMatch setModeRes s op).capture.frame_rate_stable = false ∧
    (AVSystem.step bestMatch setModeRes s op).matcher.stats.mode_switches = 0 ∧
    (AVSystem.step bestMatch setModeRes s op).set_mode_calls = 0 := by
  cases op with
  | cap c =>
      have hd := DeckLinkCapture.step_detected s.capture c
      simp only [AVSystem.step]
      exact ⟨hd.1.trans h1, hd.2.trans h2, h3, h4⟩
  | matcherSetup dok cok =>
      simp only [AVSystem.step]
      split <;> exact ⟨h1, h2, h3, h4⟩
  | setEnabled b =>
      simp only [AVSystem.step]
      exact ⟨h1, h2, h3, h4⟩
  | matcherUpdate mode =>
      simp only [AVSystem.step]
      have hu := update_not_stable s.matcher s.capture mode bestMatch setModeRes h2
      rcases hview : s.matcher.update s.capture mode bestMatch setModeRes with ⟨r, m1, calls⟩
      rw [hview] at hu
      simp only at hu
      simp only
      exact ⟨h1, h2, hu.2.2.1.trans h3, by omega⟩

/-- C10 confirmed: under any sequence of capture and matcher events,
`getDetectedFrameRate()` stays `0` and `isFrameRateStable()` stays
`false` (nothing ever writes them, `detectFrameRate` being declared but
neither defined nor called), so `mode_switches` stays 0, `setMode` is
never called, and any further `update()` call returns `SUCCESS` through
the not-stable early return, without a `setMode` call or a
`mode_switches` change. -/
theorem frameRate_detection_dead (bestMatch : ℚ → DisplayMode)
    (setModeRes : DisplayMode → Result) (ops : List SysOp) (mode : DisplayMode) :
    getDetectedFrameRate (AVSystem.run bestMatch setModeRes ops).capture = 0 ∧
    isFrameRateStable (AVSystem.run bestMatch setModeRes ops).capture = false ∧
    (AVSystem.run bestMatch setModeRes ops).matcher.stats.mode_switches = 0 ∧
    (AVSystem.run bestMatch setModeRes ops).set_mode_calls = 0 ∧
    ((AVSystem.run bestMatch setModeRes ops).matcher.update
        (AVSystem.run bestMatch setModeRes ops).capture mode bestMatch setModeRes).1 =
      Result.SUCCESS ∧
    ((AVSystem.run bestMatch setModeRes ops).matcher.update
        (AVSystem.run bestMatch setModeRes ops).capture mode bestMatch setModeRes).2.2 = 0 ∧
    ((AVSystem.run bestMatch setModeRes ops).matcher.update
        (AVSystem.run bestMatch setModeRes ops).capture mode bestMatch
        setModeRes).2.1.stats.mode_switches = 0 := by
  have key : ∀ (l : List SysOp) (s : AVSystem),
      s.capture.detected_frame_rate = 0 → s.capture.frame_rate_stable = false →
      s.matcher.stats.mode_switches = 0 → s.set_mode_calls = 0 →
      (l.foldl (AVSystem.step bestMatch setModeRes) s).capture.detected_frame_rate = 0 ∧
      (l.foldl (AVSystem.step bestMatch setModeRes) s).capture.frame_rate_stable = false ∧
      (l.foldl (AVSystem.step bestMatch setModeRes) s).matcher.stats.mode_switches = 0 ∧
      (l.foldl (AVSystem.step bestMatch setModeRes) s).set_mode_calls = 0 := by
    intro l
    induction l with
    | nil => intro s hh1 hh2 hh3 hh4; exact ⟨hh1, hh2, hh3, hh4⟩
    | cons op rest ih =>
        intro s hh1 hh2 hh3 hh4
        have hstep := AVSystem.step_invariant bestMatch setModeRes s op hh1 hh2 hh3 hh4
        exact ih _ hstep.1 hstep.2.1 hstep.2.2.1 hstep.2.2.2
  have hrun := key ops {} rfl rfl rfl rfl
  obtain ⟨k1, k2, k3, k4⟩ := hrun
  have hu := update_not_stable
    (AVSystem.run bestMatch setModeRes ops).matcher
    (AVSystem.run bestMatch setModeRes ops).capture mode bestMatch setModeRes k2
  exact ⟨k1, k2, k3, k4, hu.2.1, hu.1, hu.2.2.1.trans k3⟩

/-! ## Theorems for claim C5 — tone mapping is skipped for SDR content -/

/-- C5 confirmed: with the pipeline initialised and Stage 3 delivering
`cur`, an input whose `hdr_metadata.type` is `NONE` is treated as SDR —
`processFrame` does not consult the tone mapper at all (any two tone
mappers give identical runs) and the frame reaching the OSD-composite
stage is exactly `cur`, the unmodified output of the preceding stage;
when `hdr_metadata.type` is not `NONE` the tone mapper is applied to
`cur` and its output (or error) is what continues. -/
theorem toneMapping_skipped_for_sdr
    (getCrop : CropRegion) (nls toneMap compose : VideoFrame → Result × VideoFrame)
    (osdActive menuVisible : Bool) (pp s3 : ProcessingPipeline)
    (input cur : VideoFrame)
    (hinit : pp.initialized = true)
    (hnls : stageNLS nls (stageCrop getCrop (stage0 pp input) input).2
              (stageCrop getCrop (stage0 pp input) input).1
            = (Result.SUCCESS, cur, s3)) :
    (input.hdr_metadata.type = HDRType.NONE →
      ∀ tm : VideoFrame → Result × VideoFrame,
        ProcessingPipeline.processFrame getCrop nls tm compose osdActive menuVisible pp input
          = (Result.SUCCESS, some (osdStage compose osdActive menuVisible cur),
             finishFrame s3 input (osdStage compose osdActive menuVisible cur))) ∧
    (input.hdr_metadata.type ≠ HDRType.NONE →
      ProcessingPipeline.processFrame getCrop nls toneMap compose osdActive menuVisible pp input
        = match toneMap cur with
          | (Result.SUCCESS, tone_out) =>
              (Result.SUCCESS, some (osdStage compose osdActive menuVisible tone_out),
               finishFrame s3 input (osdStage compose osdActive menuVisible tone_out))
          | (r, _) => (r, none, s3)) := by
  constructor
  · intro h tm
    unfold ProcessingPipeline.processFrame
    rw [if_neg (by simp [hinit])]
    simp only [hnls, toneStage, h, bne_self_eq_false, Bool.false_eq_true, if_false]
  · intro h
    have hb : (input.hdr_metadata.type != HDRType.NONE) = true := by
      simpa [bne_iff_ne] using h
    unfold ProcessingPipeline.processFrame
    rw [if_neg (by simp [hinit])]
    simp only [hnls, toneStage, hb, if_true]

/-- Witness: an initialised default pipeline fed the SDR frame `inC5`
succeeds even with the always-failing tone mapper `toneC5`, delivering
the Stage-3 frame `curC5` untouched to the OSD stage. -/
theorem toneMapping_skipped_for_sdr_witness :
    ppC5.initialized = true ∧
    stageNLS nlsC5 (stageCrop {} (stage0 ppC5 inC5) inC5).2
        (stageCrop {} (stage0 ppC5 inC5) inC5).1 = (Result.SUCCESS, curC5, s3C5) ∧
    ProcessingPipeline.processFrame {} nlsC5 toneC5 composeC5 true true ppC5 inC5
      = (Result.SUCCESS, some (osdStage composeC5 true true curC5),
         finishFrame s3C5 inC5 (osdStage composeC5 true true curC5)) :=
  ⟨rfl, rfl,
   (toneMapping_skipped_for_sdr {} nlsC5 toneC5 composeC5 true true ppC5 s3C5
      inC5 curC5 rfl rfl).1 rfl toneC5⟩

/-! ## Theorems for claim C6 — menu navigation and the item invariant -/

/-- Whatever `findFrom` returns from an in-range start is an in-range
index of a visible-and-enabled item. -/
theorem findFrom_mem (items : List MenuItem) (step : Int → Int)
    (hstep : ∀ i, 0 ≤ i → i < (items.length : Int) →
      0 ≤ step i ∧ step i < (items.length : Int)) :
    ∀ (fuel : Nat) (i j : Int), 0 ≤ i → i < (items.length : Int) →
      findFrom items step fuel i = some j →
      0 ≤ j ∧ j < (items.length : Int) ∧ goodAt items j = true := by
  intro fuel
  induction fuel with
  | zero => intro i j _ _ h; exact absurd h (by simp [findFrom])
  | succ fuel ih =>
      intro i j hi0 hi1 h
      obtain ⟨hs0, hs1⟩ := hstep i hi0 hi1
      cases hlook : items[(step i).toNat]? with
      | none => rw [findFrom] at h; simp [hlook] at h
      | some it =>
          rw [findFrom] at h
          simp only [hlook] at h
          by_cases hg : (it.visible && it.enabled) = true
          · rw [if_pos hg] at h
            obtain rfl : step i = j := by simpa using h
            exact ⟨hs0, hs1, by simp [goodAt, hlook, hg]⟩
          · rw [if_neg hg] at h
            exact ih (step i) j hs0 hs1 h

/-- The navigation loop succeeds within the fuel whenever a
visible-and-enabled item exists: `d` is any step-counting distance that
is positive and decreases along `step` until the target is hit. -/
theorem findFrom_isSome (items : List MenuItem) (step : Int → Int)
    (d : Int → Int → Int)
    (hstep : ∀ i, 0 ≤ i → i < (items.length : Int) →
      0 ≤ step i ∧ step i < (items.length : Int))
    (hpos : ∀ i j, 0 ≤ i → i < (items.length : Int) →
      0 ≤ j → j < (items.length : Int) → 1 ≤ d i j)
    (hdec : ∀ i j, 0 ≤ i → i < (items.length : Int) →
      0 ≤ j → j < (items.length : Int) →
      step i ≠ j → d (step i) j = d i j - 1) :
    ∀ (fuel : Nat) (i j : Int), 0 ≤ i → i < (items.length : Int) →
      0 ≤ j → j < (items.length : Int) → goodAt items j = true →
      d i j ≤ (fuel : Int) → (findFrom items step fuel i).isSome = true := by
  intro fuel
  induction fuel with
  | zero =>
      intro i j hi0 hi1 hj0 hj1 _ hd
      have := hpos i j hi0 hi1 hj0 hj1
      simp only [Nat.cast_zero] at hd
      omega
  | succ fuel ih =>
      intro i j hi0 hi1 hj0 hj1 hg hd
      obtain ⟨hs0, hs1⟩ := hstep i hi0 hi1
      have hlt : (step i).toNat < items.length := by omega
      cases hlook : items[(step i).toNat]? with
      | none =>
          have hge : items.length ≤ (step i).toNat := by simpa using hlook
          omega
      | some it =>
          by_cases hgood : (it.visible && it.enabled) = true
          · simp [findFrom, hlook, hgood]
          · have hne : step i ≠ j := by
              intro he
              have hfalse : goodAt items j = false := by
                rw [← he]
                simp only [goodAt, hlook]
                exact Bool.not_eq_true _ ▸ (Bool.eq_false_iff.mpr hgood)
              rw [hg] at hfalse
              cases hfalse
            have hd' : d (step i) j ≤ (fuel : Int) := by
              rw [hdec i j hi0 hi1 hj0 hj1 hne]
              push_cast at hd ⊢
              omega
            rw [findFrom]
            simp only [hlook, if_neg hgood]
            exact ih (step i) j hs0 hs1 hj0 hj1 hg hd'

/-- `navigateUp` from an in-range cursor lands on a visible-and-enabled
item whenever the current tab has one (the C++ `do/while` cycles
through every index within `items.length` steps). -/
theorem navigateUp_lands (m : MenuSystem) (menu : Menu)
    (hmenu : m.getCurrentMenu = some menu)
    (hi0 : 0 ≤ m.current_item) (hi1 : m.current_item < (menu.items.length : Int))
    (hgood : ∃ j : Int, 0 ≤ j ∧ j < (menu.items.length : Int) ∧
      goodAt menu.items j = true) :
    ∃ j : Int, m.navigateUp = some { m with current_item := j } ∧
      0 ≤ j ∧ j < (menu.items.length : Int) ∧ goodAt menu.items j = true := by
  obtain ⟨jg, hj0, hj1, hjg⟩ := hgood
  have hstep : ∀ i, 0 ≤ i → i < (menu.items.length : Int) →
      0 ≤ stepUp (menu.items.length : Int) i ∧
      stepUp (menu.items.length : Int) i < (menu.items.length : Int) := by
    intro i h0 h1
    unfold stepUp
    constructor <;> (split <;> omega)
  have hsucc := findFrom_isSome menu.items (stepUp (menu.items.length : Int))
      (fun i j => if j < i then i - j else i + (menu.items.length : Int) - j)
      hstep
      (by intro i j h0 h1 h2 h3; dsimp only; split <;> omega)
      (by
        intro i j h0 h1 h2 h3 hne
        unfold stepUp at hne ⊢
        dsimp only
        split_ifs at hne ⊢ <;> omega)
      menu.items.length m.current_item jg hi0 hi1 hj0 hj1 hjg
      (by dsimp only; split <;> omega)
  cases hfind : findFrom menu.items (stepUp (menu.items.length : Int))
      menu.items.length m.current_item with
  | none => rw [hfind] at hsucc; cases hsucc
  | some j =>
      have hrange := findFrom_mem menu.items (stepUp (menu.items.length : Int))
        hstep menu.items.length m.current_item j hi0 hi1 hfind
      refine ⟨j, ?_, hrange⟩
      have hemp : menu.items.isEmpty = false := by
        cases hI : menu.items with
        | nil => rw [hI] at hj1; simp at hj1; omega
        | cons a l => rfl
      rw [MenuSystem.navigateUp, hmenu]
      simp only [hemp, Bool.false_eq_true, if_false, hfind]

/-- `navigateDown` from an in-range cursor lands on a
visible-and-enabled item whenever the current tab has one. -/
theorem navigateDown_lands (m : MenuSystem) (menu : Menu)
    (hmenu : m.getCurrentMenu = some menu)
    (hi0 : 0 ≤ m.current_item) (hi1 : m.current_item < (menu.items.length : Int))
    (hgood : ∃ j : Int, 0 ≤ j ∧ j < (menu.items.length : Int) ∧
      goodAt menu.items j = true) :
    ∃ j : Int, m.navigateDown = some { m with current_item := j } ∧
      0 ≤ j ∧ j < (menu.items.length : Int) ∧ goodAt menu.items j = true := by
  obtain ⟨jg, hj0, hj1, hjg⟩ := hgood
  have hstep : ∀ i, 0 ≤ i → i < (menu.items.length : Int) →
      0 ≤ stepDown (menu.items.length : Int) i ∧
      stepDown (menu.items.length : Int) i < (menu.items.length : Int) := by
    intro i h0 h1
    unfold stepDown
    constructor <;> (split <;> omega)
  have hsucc := findFrom_isSome menu.items (stepDown (menu.items.length : Int))
      (fun i j => if i < j then j - i else j + (menu.items.length : Int) - i)
      hstep
      (by intro i j h0 h1 h2 h3; dsimp only; split <;> omega)
      (by
        intro i j h0 h1 h2 h3 hne
        unfold stepDown at hne ⊢
        dsimp only
        split_ifs at hne ⊢ <;> omega)
      menu.items.length m.current_item jg hi0 hi1 hj0 hj1 hjg
      (by dsimp only; split <;> omega)
  cases hfind : findFrom menu.items (stepDown (menu.items.length : Int))
      menu.items.length m.current_item with
  | none => rw [hfind] at hsucc; cases hsucc
  | some j =>
      have hrange := findFrom_mem menu.items (stepDown (menu.items.length : Int))
        hstep menu.items.length m.current_item j hi0 hi1 hfind
      refine ⟨j, ?_, hrange⟩
      have hemp : menu.items.isEmpty = false := by
        cases hI : menu.items with
        | nil => rw [hI] at hj1; simp at hj1; omega
        | cons a l => rfl
      rw [MenuSystem.navigateDown, hmenu]
      simp only [hemp, Bool.false_eq_true, if_false, hfind]

/-- C6 counterexample: from a visible two-tab menu satisfying the
invariant, pressing RIGHT in navigating state lands on tab 1 with
`current_item = 0` — an item whose `enabled` flag is false — so the
menu is still visible and the claimed invariant is broken. -/
theorem menu_item_invariant_counterexample :
    navGood menuC6 = true ∧
    menuC6.handleButton RemoteButton.RIGHT =
      some { menuC6 with current_tab := 1, current_item := 0, scroll_offset := 0 } ∧
    ({ menuC6 with current_tab := 1, current_item := 0, scroll_offset := 0 }
      : MenuSystem).visible = true ∧
    navGood { menuC6 with current_tab := 1, current_item := 0, scroll_offset := 0 }
      = false := by
  decide

/-- C6 corrected: on a visible menu with the cursor in range, UP and
DOWN do restore the invariant whenever the current tab has a
visible-and-enabled item (the skip loop lands on one); but LEFT and
RIGHT in navigating state, and a NUM_1..NUM_8 direct jump to a valid
tab, merely wrap or set `current_tab` and reset `current_item` and
`scroll_offset` to 0 unconditionally — the landed-on item 0 need not be
visible or enabled, so the claimed invariant holds after them only if
the target tab's first item is. -/
theorem menu_navigation_behavior (m : MenuSystem) (menu : Menu)
    (hvis : m.visible = true)
    (hmenu : m.getCurrentMenu = some menu)
    (hi0 : 0 ≤ m.current_item) (hi1 : m.current_item < (menu.items.length : Int))
    (hgood : ∃ j : Int, 0 ≤ j ∧ j < (menu.items.length : Int) ∧
      goodAt menu.items j = true) :
    (∃ m', m.handleButton RemoteButton.UP = some m' ∧ navGood m' = true) ∧
    (∃ m', m.handleButton RemoteButton.DOWN = some m' ∧ navGood m' = true) ∧
    (m.adjusting_value = false →
      m.handleButton RemoteButton.LEFT = some { m with
          current_tab := if m.current_tab - 1 < 0 then (m.menu.tabs.length : Int) - 1
                         else m.current_tab - 1,
          current_item := 0, scroll_offset := 0 } ∧
      m.handleButton RemoteButton.RIGHT = some { m with
          current_tab := if (m.menu.tabs.length : Int) ≤ m.current_tab + 1 then 0
                         else m.current_tab + 1,
          current_item := 0, scroll_offset := 0 }) ∧
    (∀ i : Fin 8, (i.val : Int) < (m.menu.tabs.length : Int) →
      m.handleButton (RemoteButton.NUM i) = some { m with
          current_tab := (i.val : Int), current_item := 0, scroll_offset := 0 }) := by
  have hInv : ∀ j : Int, 0 ≤ j → goodAt menu.items j = true →
      navGood { m with current_item := j } = true := by
    intro j hj0 hjg
    have hrw : navGood { m with current_item := j } =
        (!m.visible ||
         (match m.getCurrentMenu with
          | none => false
          | some menu =>
              decide (0 ≤ j) &&
              (match menu.items[j.toNat]? with
               | some it => it.visible && it.enabled
               | none => false))) := rfl
    rw [hrw, hmenu, hvis]
    cases hl : menu.items[j.toNat]? with
    | none => rw [goodAt, hl] at hjg; cases hjg
    | some it =>
        have hjg2 : (it.visible && it.enabled) = true := by
          rw [goodAt, hl] at hjg; exact hjg
        simp [hl, hj0, hjg2]
  refine ⟨?_, ?_, ?_, ?_⟩
  · obtain ⟨j, hup, hj0, _, hjg⟩ := navigateUp_lands m menu hmenu hi0 hi1 hgood
    refine ⟨_, ?_, hInv j hj0 hjg⟩
    show (if m.visible = true then m.navigateUp else some m) = _
    rw [if_pos hvis]
    exact hup
  · obtain ⟨j, hdn, hj0, _, hjg⟩ := navigateDown_lands m menu hmenu hi0 hi1 hgood
    refine ⟨_, ?_, hInv j hj0 hjg⟩
    show (if m.visible = true then m.navigateDown else some m) = _
    rw [if_pos hvis]
    exact hdn
  · intro hadj
    constructor
    · show (if m.visible = true then some m.navigateLeft else some m) = _
      rw [if_pos hvis, MenuSystem.navigateLeft, if_neg (by simp [hadj])]
    · show (if m.visible = true then some m.navigateRight else some m) = _
      rw [if_pos hvis, MenuSystem.navigateRight, if_neg (by simp [hadj])]
  · intro i hi
    show (if m.visible = true then some (m.navigateTab (i.val : Int)) else some m) = _
    rw [if_pos hvis, MenuSystem.navigateTab,
      if_pos (⟨Int.natCast_nonneg i.val, hi⟩ : 0 ≤ (i.val : Int) ∧
        (i.val : Int) < (m.menu.tabs.length : Int))]

/-- Witness: `menuC6W` is visible with its cursor on item 0 of its
single two-item tab, item 1 is visible and enabled, and pressing LEFT
or RIGHT while navigating wraps the tab and resets the cursor and
scroll to 0. -/
theorem menu_navigation_behavior_witness :
    menuC6W.visible = true ∧
    menuC6W.getCurrentMenu = some tabC6W ∧
    0 ≤ menuC6W.current_item ∧
    menuC6W.current_item < (tabC6W.items.length : Int) ∧
    (0 ≤ (1 : Int) ∧ (1 : Int) < (tabC6W.items.length : Int) ∧
      goodAt tabC6W.items 1 = true) ∧
    menuC6W.adjusting_value = false ∧
    (menuC6W.handleButton RemoteButton.LEFT = some { menuC6W with
        current_tab := if menuC6W.current_tab - 1 < 0
                       then (menuC6W.menu.tabs.length : Int) - 1
                       else menuC6W.current_tab - 1,
        current_item := 0, scroll_offset := 0 } ∧
     menuC6W.handleButton RemoteButton.RIGHT = some { menuC6W with
        current_tab := if (menuC6W.menu.tabs.length : Int) ≤ menuC6W.current_tab + 1
                       then 0
                       else menuC6W.current_tab + 1,
        current_item := 0, scroll_offset := 0 }) :=
  ⟨rfl, by decide, by decide, by decide, ⟨by decide, by decide, by decide⟩, rfl,
   (menu_navigation_behavior menuC6W tabC6W rfl (by decide) (by decide) (by decide)
      ⟨1, by decide, by decide, by decide⟩).2.2.1 rfl⟩
